import Mathlib

/-!
# XRT edge-connect client: request/response correlation

A shallow embedding of `pkg/xrt/xrt.go`, `xrtcomponent.go`, `xrtdiscovery.go` and
`xrtdevice.go` (the parts that send requests and own subscriptions).

Mutable state is passed explicitly in a `World`: the request maps and the Go map objects
reachable through pointers, the ordered trace of calls made on the request map and on the
message bus, the log, the goroutines that were started and have not returned, and the
channel sends in which a goroutine is blocked.  The behaviour of
the external collaborators (JSON codec, message bus, remote responders, model
constructors) is collected in an `Env` of functions, over which every theorem is
universally quantified.
-/

namespace Xrt

/-! ## Durations and signed 64-bit arithmetic -/

/-- A `time.Duration`: a signed 64-bit count of nanoseconds. -/
abbrev Duration := Int

/-- Smallest `int64`. -/
def minInt64 : Int := -(2 ^ 63)

/-- Largest `int64`. -/
def maxInt64 : Int := 2 ^ 63 - 1

/-- Reduction of a mathematical integer to the `int64` value Go stores. -/
def wrapInt64 (x : Int) : Int := (x + 2 ^ 63) % 2 ^ 64 - 2 ^ 63

/-- Go `+` on `int64`. -/
def addInt64 (a b : Int) : Int := wrapInt64 (a + b)

/-- Method `Duration.Nanoseconds`: the duration as an `int64`. -/
def Duration.Nanoseconds (d : Duration) : Int := d

/-- Method `Duration.Milliseconds`: whole milliseconds, truncated toward zero. -/
def Duration.Milliseconds (d : Duration) : Int := Int.tdiv d 1000000

/-! ## Errors (package `errors` of go-mod-core-contracts) -/

/-- The error kinds of the EdgeX error package. -/
inductive ErrKind
  | Unknown
  | DatabaseError
  | CommunicationError
  | EntityDoesNotExist
  | ContractInvalid
  | ServerError
  | LimitExceeded
  | StatusConflict
  | DuplicateName
  | InvalidId
  | ServiceUnavailable
  | NotAllowed
  | ServiceLocked
  | NotImplemented
  | RangeNotSatisfiable
  | IOError
  | Overflow
  | NaN
  | Timeout
  deriving DecidableEq, Repr

/-- A non-nil Go `error`: either a foreign error, or a `CommonEdgeX` with a kind, a
message and possibly a wrapped error. -/
inductive GoError
  | plain (msg : String)
  | edgex (kind : ErrKind) (msg : String)
  | wrap (kind : ErrKind) (msg : String) (err : GoError)
  deriving DecidableEq, Repr

/-- Function `errors.Kind`: the first kind in the chain that is not `Unknown`. -/
def Kind : GoError → ErrKind
  | .plain _ => .Unknown
  | .edgex k _ => k
  | .wrap k _ e => if k = .Unknown then Kind e else k

/-- Function `errors.NewCommonEdgeX(kind, message, wrappedError)`. -/
def NewCommonEdgeX (kind : ErrKind) (message : String) (wrappedError : Option GoError) : GoError :=
  match wrappedError with
  | none => .edgex kind message
  | some e => .wrap kind message e

/-- Function `errors.NewCommonEdgeXWrapper(wrappedError)`: the kind is that of the wrapped error. -/
def NewCommonEdgeXWrapper (wrappedError : GoError) : GoError :=
  .wrap (Kind wrappedError) "" wrappedError

/-! ## Data -/

/-- A byte slice. -/
abbrev Bytes := List UInt8

/-- A value of type `any` stored in an option map. -/
inductive Value
  | str (s : String)
  | int (i : Int)
  | bool (b : Bool)
  | other (tag : Nat)
  deriving DecidableEq, Repr

/-- A Go `map[string]any`, as the list of its key/value pairs. -/
abbrev OptionMap := List (String × Value)

/-- Assignment `m[k] = v`. -/
def OptionMap.set (m : OptionMap) (k : String) (v : Value) : OptionMap :=
  if m.any (fun p => p.1 == k) then m.map (fun p => if p.1 == k then (k, v) else p)
  else m ++ [(k, v)]

/-- Lookup `m[k]`. -/
def OptionMap.get (m : OptionMap) (k : String) : Option Value :=
  (m.find? (fun p => p.1 == k)).map Prod.snd

/-- A `dtos.Device`. -/
structure Device where
  Name : String
  ProfileName : String
  deriving DecidableEq, Repr

/-- A `xrtmodels.DeviceInfo`. -/
structure DeviceInfo where
  Name : String
  ProfileName : String
  deriving DecidableEq, Repr

/-- The body of a request built by the `xrtmodels` constructors used here. -/
inductive RequestBody
  | componentUpdate (name : String) (config : OptionMap)
  | componentDiscover (category : String)
  | discovery (options : OptionMap)
  | deviceScan (device : DeviceInfo) (options : OptionMap)
  deriving DecidableEq, Repr

/-- A request: every one carries a request identity and the client name. -/
structure Request where
  RequestId : String
  Client : String
  Body : RequestBody
  deriving DecidableEq, Repr

/-- The result section of a response; `Error` is what its method `Error()` returns. -/
structure BaseResult where
  Error : Option GoError
  deriving DecidableEq, Repr

/-- A `xrtmodels.CommonResponse`. -/
structure CommonResponse where
  RequestId : String
  Result : BaseResult
  deriving DecidableEq, Repr

/-- A `xrtmodels.BaseResponse`: the part of a reply that carries the identity. -/
structure BaseResponse where
  RequestId : String
  deriving DecidableEq, Repr

/-- The payload of a message envelope (type `any`). -/
inductive Payload
  | bytes (b : Bytes)
  | other (tag : Nat)
  deriving DecidableEq, Repr

/-- A `types.MessageEnvelope`. -/
structure MessageEnvelope where
  ReceivedTopic : String
  ContentType : String
  Payload : Payload
  deriving DecidableEq, Repr

/-! ## Request map -/

/-- A delivery channel: the payloads sent into it and not yet received, oldest first. -/
abbrev Chan := List Bytes

/-- Modelled from the spec: the Correlation Table (`RequestMap` with `NewRequestMap`,
`Add`, `Get` and `Delete`), whose source file is missing.  It maps a request identity
to its delivery channel and holds at most one entry per identity. -/
abbrev RequestMap := String → Option Chan

/-- Modelled from the spec: `NewRequestMap`, the empty table. -/
def NewRequestMap : RequestMap := fun _ => none

/-- Modelled from the spec: `register(identity)` creates a new delivery channel for the
identity (an identity already registered gets the new channel). -/
def RequestMap.Add (m : RequestMap) (requestId : String) : RequestMap :=
  Function.update m requestId (some [])

/-- Modelled from the spec: the entry of an identity, if one exists. -/
def RequestMap.Get (m : RequestMap) (requestId : String) : Option Chan := m requestId

/-- Modelled from the spec: `remove(identity)` deletes the entry; idempotent. -/
def RequestMap.Delete (m : RequestMap) (requestId : String) : RequestMap :=
  Function.update m requestId none

/-! ## Client configuration -/

/-- A `MessageHandler` function value: nil, a function supplied by the caller, or the
closure that `commandReplyHandler` returns for the request map at a pointer. -/
inductive MessageHandler
  | nil
  | callerSupplied (id : Nat)
  | commandReply (requestMap : Nat)
  deriving DecidableEq, Repr

structure Subscription where
  topic : String
  messageHandler : MessageHandler
  deriving DecidableEq, Repr

structure CommandOptions where
  CommandTopic : String
  DiscoveryTopic : String
  DiscoveryMessageHandler : MessageHandler
  deriving DecidableEq, Repr

/-- The discovery group.  A Go map is a reference: `ExtentedDiscoveryOptions` is the
pointer of a map object in `World.maps`, or `none` for the nil map. -/
structure DiscoveryOptions where
  DiscoveryTopic : String
  DiscoveryMessageHandler : MessageHandler
  DiscoveryDuration : Duration
  DiscoveryTimeout : Duration
  ExtentedDiscoveryOptions : Option Nat
  deriving DecidableEq, Repr

structure StatusOptions where
  StatusTopic : String
  StatusMessageHandler : MessageHandler
  deriving DecidableEq, Repr

/-- The three embedded pointers of `ClientOptions`; `none` is a nil pointer. -/
structure ClientOptions where
  CommandOptions : Option CommandOptions
  DiscoveryOptions : Option DiscoveryOptions
  StatusOptions : Option StatusOptions
  deriving DecidableEq, Repr

/-- The fields of `Client`; the logger and the message bus live in `World` and `Env`,
and `requestMap` is a pointer into `World.heap`. -/
structure Client where
  requestMap : Nat
  requestTopic : String
  replyTopic : String
  responseTimeout : Duration
  clientOptions : Option ClientOptions
  deriving DecidableEq, Repr

def clientName : String := "central-go-client"

/-! ## World and environment -/

/-- A call made on the request map or on the message bus, or a caller handler run. -/
inductive Event
  | add (requestMap : Nat) (requestId : String)
  | publish (data : Bytes) (topic : String)
  | fetch (requestMap : Nat) (requestId : String) (timeout : Duration)
  | fetchSub (requestMap : Nat) (requestId : String) (timeout : Duration)
  | subscribe (topic : String)
  | unsubscribe (topic : String)
  | handled (handler : Nat) (message : MessageEnvelope)
  deriving DecidableEq, Repr

inductive LogLevel
  | debug
  | info
  | warn
  | error
  deriving DecidableEq, Repr

/-- A goroutine started by `initSubscriptions`. -/
inductive Task
  | errorReporter
  | listener (sub : Subscription)
  deriving DecidableEq, Repr

/-- The mutable state.  `heap` holds the request maps and `maps` the Go map objects, both
by pointer (`nextPtr`, `nextMap` are the next free pointers); `trace` is the calls made so
far, `running` the goroutines started and not returned, and `sending` the channel sends
in which a goroutine is blocked: request map, identity of the entry, payload. -/
structure World where
  heap : Nat → RequestMap
  nextPtr : Nat
  uuids : Nat
  trace : List Event
  logs : List (LogLevel × String)
  running : List Task
  maps : Nat → OptionMap
  nextMap : Nat
  sending : List (Nat × String × Bytes)

/-- The behaviour of everything outside the package, and `channelCapacity`, the capacity
with which the request map (whose source file is missing) makes its delivery channels;
the spec gives capacity 1 for single-response calls. -/
structure Env where
  marshal : Request → Except GoError Bytes
  unmarshalCommon : Bytes → Except GoError CommonResponse
  publishBinaryData : Bytes → String → Option GoError
  subscribeBinaryData : String → Option GoError
  unsubscribe : String → Option GoError
  awaited : String → Duration → Option Bytes
  drained : String → Duration → List Bytes
  timeoutError : GoError
  noChannelError : GoError
  convertMsgPayloadToByteArray : MessageEnvelope → Except GoError Bytes
  getMsgPayload : MessageEnvelope → Except GoError BaseResponse
  toXrtDevice : Device → Except GoError DeviceInfo
  newUUID : Nat → String
  channelCapacity : Nat

def World.log (w : World) (level : LogLevel) (format : String) : World :=
  { w with logs := w.logs ++ [(level, format)] }

def World.record (w : World) (e : Event) : World :=
  { w with trace := w.trace ++ [e] }

/-- What a send returns: the `errors.EdgeX` (none is nil), the value stored through the
`response` pointer when the first decode succeeded, and the world afterwards. -/
structure Sent (ρ : Type) where
  err : Option GoError
  response : Option ρ
  world : World

/-! ## Request dispatcher -/

/-- Method `c.requestMap.Add(requestId)` on the map behind a pointer. -/
def World.Add (w : World) (requestMap : Nat) (requestId : String) : World :=
  { w with
    heap := Function.update w.heap requestMap ((w.heap requestMap).Add requestId)
    trace := w.trace ++ [.add requestMap requestId] }

/-- Method `requestMap.Delete(requestId)` on the map behind a pointer. -/
def World.Delete (w : World) (requestMap : Nat) (requestId : String) : World :=
  { w with heap := Function.update w.heap requestMap ((w.heap requestMap).Delete requestId) }

/-- Modelled from the spec: `FetchXRTResponse`, the fetch routine of the single-response
call, whose source file is missing.  It awaits exactly one payload on the delivery
channel of the identity within the budget and removes the entry, also on timeout.  The
payload is the oldest one already in the channel, else the one the environment
delivers within the budget. -/
def FetchXRTResponse (env : Env) (requestId : String) (requestMap : Nat)
    (requestTimeout : Duration) (w : World) : Except GoError Bytes × World :=
  let w := w.record (.fetch requestMap requestId requestTimeout)
  match (w.heap requestMap).Get requestId with
  | none => (.error env.noChannelError, w)
  | some resChan =>
    match resChan.head? <|> env.awaited requestId requestTimeout with
    | some payload => (.ok payload, w.Delete requestMap requestId)
    | none => (.error env.timeoutError, w.Delete requestMap requestId)

/-- Modelled from the spec: `FetchXRTResWithSubTimeout`, the fetch routine of the fan-in
call, whose source file is missing.  It collects every payload that arrives before the
subscribe timeout elapses, decodes the collection into the response (zero payloads is
not an error) and removes the entry. -/
def FetchXRTResWithSubTimeout {ρ : Type} (env : Env) (requestId : String) (requestMap : Nat)
    (subscribeTimeout : Duration) (response : List Bytes → Except GoError ρ) (w : World) :
    Except GoError ρ × World :=
  let w := w.record (.fetchSub requestMap requestId subscribeTimeout)
  match (w.heap requestMap).Get requestId with
  | none => (.error env.noChannelError, w)
  | some resChan =>
    (response (resChan ++ env.drained requestId subscribeTimeout), w.Delete requestMap requestId)

/-- Method `Client.sendXrtRequestWithTimeout`; `response` is the JSON decoder of the type the
`response` pointer points to. -/
def sendXrtRequestWithTimeout {ρ : Type} (env : Env) (c : Client) (requestTopic : String)
    (requestId : String) (request : Request) (response : Bytes → Except GoError ρ)
    (responseTimeout : Duration) (w : World) : Sent ρ :=
  match env.marshal request with
  | .error err => ⟨some (NewCommonEdgeXWrapper err), none, w⟩
  | .ok jsonData =>
    let w := w.Add c.requestMap requestId
    let w := w.record (.publish jsonData requestTopic)
    match env.publishBinaryData jsonData requestTopic with
    | some err =>
      ⟨some (NewCommonEdgeX (Kind err) "failed to send the XRT request" (some err)), none, w⟩
    | none =>
      match FetchXRTResponse env requestId c.requestMap responseTimeout w with
      | (.error err, w) => ⟨some (NewCommonEdgeXWrapper err), none, w⟩
      | (.ok cmdResponseBytes, w) =>
        match response cmdResponseBytes with
        | .error err =>
          ⟨some (NewCommonEdgeX .ServerError "failed to JSON decoding command response: %v"
            (some err)), none, w⟩
        | .ok decoded =>
          match env.unmarshalCommon cmdResponseBytes with
          | .error err =>
            ⟨some (NewCommonEdgeX .ServerError "failed to JSON decoding command response: %v"
              (some err)), some decoded, w⟩
          | .ok commonResponse =>
            match commonResponse.Result.Error with
            | some resultErr => ⟨some (NewCommonEdgeXWrapper resultErr), some decoded, w⟩
            | none => ⟨none, some decoded, w⟩

/-- Method `Client.sendXrtRequestWithSubTimeout`. -/
def sendXrtRequestWithSubTimeout {ρ : Type} (env : Env) (c : Client) (requestTopic : String)
    (requestId : String) (request : Request) (response : List Bytes → Except GoError ρ)
    (subscribeTimeout : Duration) (w : World) : Sent ρ :=
  match env.marshal request with
  | .error err => ⟨some (NewCommonEdgeXWrapper err), none, w⟩
  | .ok jsonData =>
    let w := w.Add c.requestMap requestId
    let w := w.record (.publish jsonData requestTopic)
    match env.publishBinaryData jsonData requestTopic with
    | some err =>
      ⟨some (NewCommonEdgeX (Kind err) "failed to send the XRT request" (some err)), none, w⟩
    | none =>
      match FetchXRTResWithSubTimeout env requestId c.requestMap subscribeTimeout response w with
      | (.error edgexErr, w) => ⟨some (NewCommonEdgeXWrapper edgexErr), none, w⟩
      | (.ok decoded, w) => ⟨none, some decoded, w⟩

/-- Method `Client.SetResponseTimeout`. -/
def SetResponseTimeout (c : Client) (responseTimeout : Duration) : Client :=
  { c with responseTimeout := responseTimeout }

/-- Method `Client.sendXrtRequest`: the general request. -/
def sendXrtRequest {ρ : Type} (env : Env) (c : Client) (requestId : String) (request : Request)
    (response : Bytes → Except GoError ρ) (w : World) : Sent ρ :=
  sendXrtRequestWithTimeout env c c.requestTopic requestId request response c.responseTimeout w

/-- Method `Client.sendXrtDiscoveryRequest`: the discovery request. -/
def sendXrtDiscoveryRequest {ρ : Type} (env : Env) (c : Client) (requestId : String)
    (request : Request) (response : Bytes → Except GoError ρ) (w : World) : Sent ρ :=
  match c.clientOptions.bind (fun o => o.DiscoveryOptions) with
  | none =>
    ⟨some (NewCommonEdgeX .ContractInvalid
      "please provide DiscoveryOptions for the discovery request" none), none, w⟩
  | some discoveryOptions =>
    let timeout : Duration :=
      addInt64 (addInt64 c.responseTimeout.Nanoseconds
        discoveryOptions.DiscoveryDuration.Nanoseconds)
        discoveryOptions.DiscoveryTimeout.Nanoseconds
    sendXrtRequestWithTimeout env c c.requestTopic requestId request response timeout w

/-- Method `Client.sendXrtCommandRequest`: the command request. -/
def sendXrtCommandRequest {ρ : Type} (env : Env) (c : Client) (requestId : String)
    (request : Request) (response : Bytes → Except GoError ρ) (w : World) : Sent ρ :=
  match c.clientOptions.bind (fun o => o.CommandOptions) with
  | none =>
    ⟨some (NewCommonEdgeX .ContractInvalid
      "please provide CommandOptions for the command request" none), none, w⟩
  | some commandOptions =>
    sendXrtRequestWithTimeout env c commandOptions.CommandTopic requestId request response
      c.responseTimeout w

/-! ## Operations built on the dispatcher -/

/-- The `xrtmodels.New...Request` constructors: a fresh request identity, the client
name and the body. -/
def newRequest (env : Env) (client : String) (body : RequestBody) (w : World) : Request × World :=
  (⟨env.newUUID w.uuids, client, body⟩, { w with uuids := w.uuids + 1 })

def luaTransformComponent : String := "lua"

def componentConfigScript : String := "Script"

def discoveryDurationOption : String := "DiscoveryDuration"

/-- What an operation without a result value returns. -/
abbrev Done := Option GoError × World

/-- Method `Client.UpdateLuaScript`. -/
def UpdateLuaScript (env : Env) (c : Client) (luaScript : String) (w : World) : Done :=
  let config : OptionMap := [(componentConfigScript, .str luaScript)]
  let (request, w) := newRequest env clientName (.componentUpdate luaTransformComponent config) w
  let sent := sendXrtCommandRequest env c request.RequestId request env.unmarshalCommon w
  match sent.err with
  | some err =>
    (some (NewCommonEdgeX (Kind err)
      "failed to update the Lua script to Lua transform component" (some err)), sent.world)
  | none => (none, sent.world)

/-- Method `Client.UpdateComponent`. -/
def UpdateComponent (env : Env) (c : Client) (name : String) (config : OptionMap) (w : World) :
    Done :=
  let (request, w) := newRequest env clientName (.componentUpdate name config) w
  let sent := sendXrtCommandRequest env c request.RequestId request env.unmarshalCommon w
  match sent.err with
  | some err => (some (NewCommonEdgeX (Kind err) "failed to update the component" (some err)),
      sent.world)
  | none => (none, sent.world)

/-- A map literal or `make`: a new map object with the given contents. -/
def World.makeMap (w : World) (contents : OptionMap) : Nat × World :=
  (w.nextMap,
    { w with maps := Function.update w.maps w.nextMap contents, nextMap := w.nextMap + 1 })

/-- Assignment `m[k] = v` on the map object behind a pointer. -/
def World.setMap (w : World) (m : Nat) (k : String) (v : Value) : World :=
  { w with maps := Function.update w.maps m ((w.maps m).set k v) }

/-- The pairs a `range` over a map reference visits; the nil map has none. -/
def World.readMap (w : World) (m : Option Nat) : OptionMap :=
  match m with
  | none => []
  | some p => w.maps p

/-- The statements of `TriggerDiscovery` that build the option map: a new map holding
the duration in milliseconds, then `options[k] = v` for every pair of the configured
extended options.  Returns the pointer of the new map. -/
def discoveryRequestOptions (d : DiscoveryOptions) (w : World) : Nat × World :=
  let (options, w) :=
    w.makeMap [(discoveryDurationOption, .int d.DiscoveryDuration.Milliseconds)]
  (options,
    (w.readMap d.ExtentedDiscoveryOptions).foldl (fun acc kv => acc.setMap options kv.1 kv.2) w)

/-- Method `Client.TriggerDiscovery`. -/
def TriggerDiscovery (env : Env) (c : Client) (w : World) : Done :=
  match c.clientOptions.bind (fun o => o.DiscoveryOptions) with
  | none =>
    (some (NewCommonEdgeX .ContractInvalid
      "please provide DiscoveryOptions for the discovery request" none), w)
  | some discoveryOptions =>
    let (options, w) := discoveryRequestOptions discoveryOptions w
    let w := w.log .debug "triggering discovery with discovery options - %v"
    let (request, w) := newRequest env clientName (.discovery (w.maps options)) w
    let sent := sendXrtDiscoveryRequest env c request.RequestId request env.unmarshalCommon w
    match sent.err with
    | some err => (some (NewCommonEdgeX (Kind err) "failed to trigger discovery" (some err)),
        sent.world)
    | none => (none, sent.world)

/-- Method `Client.ScanDevice`. -/
def ScanDevice (env : Env) (c : Client) (device : Device) (options : OptionMap) (w : World) :
    Done :=
  match env.toXrtDevice device with
  | .error err =>
    (some (NewCommonEdgeX .ServerError "failed to convert Edgex device to XRT device data"
      (some err)), w)
  | .ok xrtDevice =>
    let (request, w) := newRequest env clientName (.deviceScan xrtDevice options) w
    let w := w.log .debug
      "Sending device scan request for device %s with profile name %s and options %v"
    let sent := sendXrtDiscoveryRequest env c request.RequestId request env.unmarshalCommon w
    match sent.err with
    | some err => (some (NewCommonEdgeX (Kind err) "failed to scan device" (some err)),
        sent.world)
    | none => (none, sent.world)

/-! ## Subscriptions -/

/-- The closure returned by `commandReplyHandler(requestMap, lc)`, applied to a message.
The send `resChan <- payload` puts the payload into the channel of the entry when the
channel holds fewer payloads than its capacity; on a full channel the send blocks, the
closure does not return, and the blocked send is recorded in `sending`.  (A run of the
closure happens between the steps of the dispatcher, so no receiver is waiting.) -/
def commandReplyHandler (env : Env) (requestMap : Nat) (message : MessageEnvelope) (w : World) :
    World :=
  match env.convertMsgPayloadToByteArray message with
  | .error _ => w.log .error "failed to convert message payload to byte array: %v"
  | .ok payload =>
    let message := { message with Payload := .bytes payload }
    match env.getMsgPayload message with
    | .error _ => w.log .warn "failed to parse XRT reply, message:%s, err: %v"
    | .ok response =>
      match (w.heap requestMap).Get response.RequestId with
      | none =>
        w.log .debug
          "deprecated response from the XRT, it might be caused by timeout or unknown error, topic: %s, message:%s"
      | some resChan =>
        if resChan.length < env.channelCapacity then
          { w with
            heap := Function.update w.heap requestMap
              (Function.update (w.heap requestMap) response.RequestId
                (some (resChan ++ [payload]))) }
        else { w with sending := w.sending ++ [(requestMap, response.RequestId, payload)] }

/-- Calling a `MessageHandler` value on a message. -/
def MessageHandler.invoke (env : Env) (h : MessageHandler) (message : MessageEnvelope)
    (w : World) : World :=
  match h with
  | .nil => w
  | .callerSupplied id => w.record (.handled id message)
  | .commandReply requestMap => commandReplyHandler env requestMap message w

/-- The helper `subscription(topic, messageHandler)`. -/
def subscription (topic : String) (messageHandler : MessageHandler) : Subscription :=
  ⟨topic, messageHandler⟩

/-- The function `createSubscriptions(xrtClient, clientOptions)`. -/
def createSubscriptions (xrtClient : Client) (clientOptions : Option ClientOptions) :
    List Subscription :=
  let subscriptions : List Subscription := []
  let subscriptions :=
    if xrtClient.replyTopic ≠ "" then
      subscriptions ++ [subscription xrtClient.replyTopic (.commandReply xrtClient.requestMap)]
    else subscriptions
  match clientOptions with
  | none => subscriptions
  | some clientOptions =>
    let subscriptions :=
      match clientOptions.CommandOptions with
      | some o =>
        if o.DiscoveryTopic ≠ "" ∧ o.DiscoveryMessageHandler ≠ .nil then
          subscriptions ++ [subscription o.DiscoveryTopic o.DiscoveryMessageHandler]
        else subscriptions
      | none => subscriptions
    let subscriptions :=
      match clientOptions.DiscoveryOptions with
      | some o =>
        if o.DiscoveryTopic ≠ "" ∧ o.DiscoveryMessageHandler ≠ .nil then
          subscriptions ++ [subscription o.DiscoveryTopic o.DiscoveryMessageHandler]
        else subscriptions
      | none => subscriptions
    let subscriptions :=
      match clientOptions.StatusOptions with
      | some o =>
        if o.StatusTopic ≠ "" ∧ o.StatusMessageHandler ≠ .nil then
          subscriptions ++ [subscription o.StatusTopic o.StatusMessageHandler]
        else subscriptions
      | none => subscriptions
    subscriptions

/-- Statement `go f()`: the goroutine is running from now on. -/
def World.spawn (w : World) (t : Task) : World :=
  { w with running := w.running ++ [t] }

/-- The loop `for _, sub := range subscriptions` of `initSubscriptions`: start the
listener goroutine of the subscription, then subscribe its topic; the first failing
subscribe returns. -/
def subscribeEach (env : Env) : List Subscription → World → Option GoError × World
  | [], w => (none, w)
  | sub :: rest, w =>
    let w := w.spawn (.listener sub)
    let w := w.log .info "Waiting for messages from the MessageBus on the '%s' topic"
    let w := w.record (.subscribe sub.topic)
    match env.subscribeBinaryData sub.topic with
    | some err =>
      (some (NewCommonEdgeX (Kind err) ("subscribe to topic '" ++ sub.topic ++ "' failed")
        (some err)), w)
    | none => subscribeEach env rest (w.log .debug "Subscribed to %s")

/-- The function `initSubscriptions`, for a context that is not cancelled during the
call: no started goroutine can take its `ctx.Done()` branch before the call returns. -/
def initSubscriptions (env : Env) (xrtClient : Client) (clientOptions : Option ClientOptions)
    (w : World) : Option GoError × World :=
  let subscriptions := createSubscriptions xrtClient clientOptions
  let w := w.spawn .errorReporter
  subscribeEach env subscriptions w

/-- The constructor `NewXrtClient`: the client is returned also when the error is not nil. -/
def NewXrtClient (env : Env) (requestTopic replyTopic : String) (responseTimeout : Duration)
    (clientOptions : Option ClientOptions) (w : World) : Client × Option GoError × World :=
  let requestMap := w.nextPtr
  let w := { w with heap := Function.update w.heap requestMap NewRequestMap, nextPtr := requestMap + 1 }
  let client : Client :=
    { requestMap := requestMap
      requestTopic := requestTopic
      replyTopic := replyTopic
      responseTimeout := responseTimeout
      clientOptions := clientOptions }
  match initSubscriptions env client clientOptions w with
  | (some err, w) =>
    (client, some (NewCommonEdgeX (Kind err) "failed to init subscriptions" (some err)), w)
  | (none, w) => (client, none, w)

/-- What wakes a goroutine blocked in its `select`. -/
inductive Wake
  | done
  | message (m : MessageEnvelope)
  | busError (err : GoError)

/-- One turn of the `select` loop of a goroutine started by `initSubscriptions`.  On
`ctx.Done()` a listener calls `Unsubscribe` for its topic, logs a failure, and returns;
on a message it runs its handler and keeps running.  The error reporter logs the bus
errors and returns on `ctx.Done()`.  A wake-up that is not a case of the goroutine's
`select` leaves the world as it is. -/
def Task.step (env : Env) (t : Task) (wake : Wake) (w : World) : World :=
  match t, wake with
  | .errorReporter, .done =>
    let w := w.log .info "Exiting waiting for MessageBus errors"
    { w with running := w.running.erase t }
  | .errorReporter, .busError _ => w.log .error "error receiving message from bus, %s"
  | .errorReporter, .message _ => w
  | .listener _, .busError _ => w
  | .listener sub, .done =>
    let w := w.log .info "Exiting waiting for MessageBus '%s' topic messages"
    let w := w.record (.unsubscribe sub.topic)
    let w :=
      match env.unsubscribe sub.topic with
      | some _ => w.log .error "Error occurred while unsubscribing from topic %s"
      | none => w
    { w with running := w.running.erase t }
  | .listener sub, .message m =>
    let w := w.log .debug "Received message from the topic %s"
    sub.messageHandler.invoke env m w

/-- Cancellation of the lifetime context while the running goroutines are parked in
their `select`: every one takes its `ctx.Done()` branch once (here in the order in which
they were started). -/
def cancel (env : Env) (w : World) : World :=
  w.running.foldl (fun acc t => t.step env .done acc) w

/-- Number of `Unsubscribe` calls for a topic in a trace. -/
def unsubscribeCalls (topic : String) (trace : List Event) : Nat :=
  trace.count (.unsubscribe topic)

/-- Number of `PublishBinaryData` calls in a trace. -/
def publishCalls (trace : List Event) : Nat :=
  trace.countP (fun e => match e with | .publish _ _ => true | _ => false)

/-- Number of `Add` calls for an identity in a trace. -/
def addCalls (requestId : String) (trace : List Event) : Nat :=
  trace.countP (fun e => match e with | .add _ id => id == requestId | _ => false)

/-- A world with no request map entries, no calls made and nothing running. -/
def World.empty : World :=
  { heap := fun _ => NewRequestMap, nextPtr := 0, uuids := 0, trace := [], logs := [], running := []
    maps := fun _ => [], nextMap := 0, sending := [] }

/-! ## Sample inputs -/

/-- An environment in which every external call succeeds and the responder answers
each request with an empty payload that decodes to a result without error. -/
def sampleEnv : Env :=
  { marshal := fun _ => .ok [123, 125]
    unmarshalCommon := fun _ => .ok ⟨"", ⟨none⟩⟩
    publishBinaryData := fun _ _ => none
    subscribeBinaryData := fun _ => none
    unsubscribe := fun _ => none
    awaited := fun _ _ => some []
    drained := fun _ _ => []
    timeoutError := .edgex .ServerError "timed out"
    noChannelError := .edgex .ServerError "no response channel"
    convertMsgPayloadToByteArray := fun m =>
      match m.Payload with
      | .bytes b => .ok b
      | .other _ => .error (.plain "unsupported payload")
    getMsgPayload := fun m =>
      match m.Payload with
      | .bytes (1 :: _) => .ok ⟨"r1"⟩
      | .bytes _ => .ok ⟨"r2"⟩
      | .other _ => .error (.plain "unsupported payload")
    toXrtDevice := fun d => .ok ⟨d.Name, d.ProfileName⟩
    newUUID := fun n => "req-" ++ toString n
    channelCapacity := 1 }

/-- Discovery options with a 5s duration and a 1s timeout. -/
def sampleDiscoveryOptions : DiscoveryOptions :=
  { DiscoveryTopic := "xrt/discovery"
    DiscoveryMessageHandler := .callerSupplied 1
    DiscoveryDuration := 5000000000
    DiscoveryTimeout := 1000000000
    ExtentedDiscoveryOptions := none }

/-- Command options with a dedicated command topic. -/
def sampleCommandOptions : CommandOptions :=
  { CommandTopic := "xrt/command"
    DiscoveryTopic := "xrt/command/discovery"
    DiscoveryMessageHandler := .callerSupplied 2 }

/-- Client options with the command and discovery groups supplied. -/
def sampleOptions : ClientOptions :=
  { CommandOptions := some sampleCommandOptions
    DiscoveryOptions := some sampleDiscoveryOptions
    StatusOptions := none }

/-- A client with a 2s base response timeout and all of `sampleOptions`. -/
def sampleClient : Client :=
  { requestMap := 0
    requestTopic := "xrt/request"
    replyTopic := "xrt/reply"
    responseTimeout := 2000000000
    clientOptions := some sampleOptions }

/-- A client without any client options. -/
def bareClient : Client := { sampleClient with clientOptions := none }

/-- A client whose options carry only the status group. -/
def statusOnlyClient : Client :=
  { sampleClient with clientOptions := some ⟨none, none, some ⟨"xrt/status", .callerSupplied 3⟩⟩ }

/-- A discovery request with identity `r1`. -/
def sampleRequest : Request := ⟨"r1", clientName, .discovery []⟩

/-- The sample environment with a message bus whose publish fails. -/
def publishFailsEnv : Env :=
  { sampleEnv with publishBinaryData := fun _ _ => some (.edgex .CommunicationError "not connected") }

/-- The sample environment with a responder whose result section carries an error. -/
def resultErrorEnv : Env :=
  { sampleEnv with
    unmarshalCommon := fun _ => .ok ⟨"r1", ⟨some (.edgex .EntityDoesNotExist "no such device")⟩⟩ }

/-- The sample environment with a message bus on which every subscribe fails. -/
def subscribeFailsEnv : Env :=
  { sampleEnv with
    subscribeBinaryData := fun _ => some (.edgex .CommunicationError "not connected") }

/-- Client options whose command group and discovery group name the same discovery
topic. -/
def sharedTopicOptions : ClientOptions :=
  { CommandOptions := some ⟨"xrt/command", "xrt/discovery", .callerSupplied 2⟩
    DiscoveryOptions := some sampleDiscoveryOptions
    StatusOptions := none }

/-- A client configured with `sharedTopicOptions`. -/
def sharedTopicClient : Client := { sampleClient with clientOptions := some sharedTopicOptions }

/-- A client whose reply topic is the empty string. -/
def noReplyTopicClient : Client := { sampleClient with replyTopic := "" }

/-- The `Unsubscribe` call a goroutine makes when it takes its `ctx.Done()` branch. -/
def Task.unsubscribeEvent : Task → Option Event
  | .errorReporter => none
  | .listener sub => some (.unsubscribe sub.topic)

/-- Client options with all three groups supplied. -/
def fullOptions : ClientOptions :=
  { CommandOptions := some sampleCommandOptions
    DiscoveryOptions := some sampleDiscoveryOptions
    StatusOptions := some ⟨"xrt/status", .callerSupplied 3⟩ }

/-- The sample environment with a JSON encoder that rejects every request. -/
def marshalFailsEnv : Env :=
  { sampleEnv with marshal := fun _ => .error (.plain "json: unsupported type") }

/-- Discovery options with a 5s duration whose extended options are the map object at
pointer 0. -/
def extendedDiscoveryOptions : DiscoveryOptions :=
  { sampleDiscoveryOptions with ExtentedDiscoveryOptions := some 0 }

/-- A world whose map object 0 names a protocol and sets `DiscoveryDuration` itself. -/
def extendedOptionsWorld : World :=
  { World.empty with
    maps := fun p =>
      if p = 0 then [("Protocol", .str "modbus"), ("DiscoveryDuration", .int 250)] else []
    nextMap := 1 }

/-- A client configured with `extendedDiscoveryOptions`. -/
def extendedDiscoveryClient : Client :=
  { sampleClient with clientOptions := some ⟨none, some extendedDiscoveryOptions, none⟩ }

/-- A client with the largest base response timeout and a discovery duration of one
nanosecond. -/
def overflowClient : Client :=
  { sampleClient with
    responseTimeout := 9223372036854775807
    clientOptions := some ⟨none,
      some { sampleDiscoveryOptions with DiscoveryDuration := 1, DiscoveryTimeout := 0 }, none⟩ }

/-! ## Lemmas on the dispatcher -/

theorem wrapInt64_of_range (x : Int) (h0 : 0 ≤ x) (h1 : x ≤ maxInt64) : wrapInt64 x = x := by
  unfold wrapInt64
  unfold maxInt64 at h1
  omega

theorem addInt64_exact (a b e : Int) (ha : 0 ≤ a) (hb : 0 ≤ b) (he : 0 ≤ e)
    (hfit : a + b + e ≤ maxInt64) : addInt64 (addInt64 a b) e = a + b + e := by
  unfold addInt64
  rw [wrapInt64_of_range (a + b) (by omega) (by omega)]
  exact wrapInt64_of_range _ (by omega) hfit

theorem Kind_NewCommonEdgeX_some (k : ErrKind) (msg : String) (e : GoError) :
    Kind (NewCommonEdgeX k msg (some e)) = if k = .Unknown then Kind e else k := rfl

theorem Kind_NewCommonEdgeX_Kind (msg : String) (e : GoError) :
    Kind (NewCommonEdgeX (Kind e) msg (some e)) = Kind e := by
  simp [NewCommonEdgeX, Kind]

theorem Kind_NewCommonEdgeXWrapper (e : GoError) : Kind (NewCommonEdgeXWrapper e) = Kind e := by
  simp [NewCommonEdgeXWrapper, Kind]

theorem FetchXRTResponse_trace (env : Env) (requestId : String) (requestMap : Nat)
    (t : Duration) (w : World) :
    (FetchXRTResponse env requestId requestMap t w).2.trace
      = w.trace ++ [.fetch requestMap requestId t] := by
  unfold FetchXRTResponse
  simp only [World.record]
  split
  · rfl
  · split <;> rfl

/-- The calls a single-response send makes, in order: nothing when the request does not
serialise; else `Add`, then one publish, then (after a successful publish) the fetch
with the given budget. -/
theorem sendXrtRequestWithTimeout_trace {ρ : Type} (env : Env) (c : Client)
    (topic requestId : String) (request : Request) (response : Bytes → Except GoError ρ)
    (t : Duration) (w : World) :
    (sendXrtRequestWithTimeout env c topic requestId request response t w).world.trace
      = w.trace ++
        (match env.marshal request with
         | .error _ => []
         | .ok jsonData =>
           [.add c.requestMap requestId, .publish jsonData topic] ++
             (match env.publishBinaryData jsonData topic with
              | some _ => []
              | none => [.fetch c.requestMap requestId t])) := by
  unfold sendXrtRequestWithTimeout
  cases hm : env.marshal request with
  | error e => simp
  | ok jsonData =>
    cases hp : env.publishBinaryData jsonData topic with
    | some e => simp [hp, World.Add, World.record]
    | none =>
      have ht := FetchXRTResponse_trace env requestId c.requestMap t
        ((w.Add c.requestMap requestId).record (.publish jsonData topic))
      rcases hf : FetchXRTResponse env requestId c.requestMap t
        ((w.Add c.requestMap requestId).record (.publish jsonData topic)) with ⟨r, w1⟩
      rw [hf] at ht
      simp only [World.Add, World.record] at ht
      simp only [hp, hf]
      cases r with
      | error e => simpa using ht
      | ok bytes =>
        simp only []
        cases response bytes with
        | error e => simpa using ht
        | ok decoded =>
          simp only []
          cases env.unmarshalCommon bytes with
          | error e => simpa using ht
          | ok common =>
            simp only []
            cases common.Result.Error <;> simpa using ht

/-! ## Timeout policy and configuration errors -/

/-- C1: with discovery options supplied and non-negative base timeout, discovery
duration and discovery timeout whose sum fits in an int64, `sendXrtDiscoveryRequest` is
the single-response send on the generic request topic with the budget
base + duration + timeout exactly: the publish goes to the request topic and the fetch
waits for that sum. -/
theorem C1_discovery_budget_is_sum {ρ : Type} (env : Env) (c : Client) (o : ClientOptions)
    (d : DiscoveryOptions) (requestId : String) (request : Request)
    (response : Bytes → Except GoError ρ) (w : World)
    (ho : c.clientOptions = some o) (hd : o.DiscoveryOptions = some d)
    (h0 : 0 ≤ c.responseTimeout) (h1 : 0 ≤ d.DiscoveryDuration) (h2 : 0 ≤ d.DiscoveryTimeout)
    (hfit : c.responseTimeout + d.DiscoveryDuration + d.DiscoveryTimeout ≤ maxInt64) :
    sendXrtDiscoveryRequest env c requestId request response w
        = sendXrtRequestWithTimeout env c c.requestTopic requestId request response
            (c.responseTimeout + d.DiscoveryDuration + d.DiscoveryTimeout) w
      ∧ ∀ jsonData, env.marshal request = .ok jsonData →
          (sendXrtDiscoveryRequest env c requestId request response w).world.trace
            = w.trace ++ [.add c.requestMap requestId, .publish jsonData c.requestTopic] ++
                (match env.publishBinaryData jsonData c.requestTopic with
                 | some _ => []
                 | none => [.fetch c.requestMap requestId
                     (c.responseTimeout + d.DiscoveryDuration + d.DiscoveryTimeout)]) := by
  have hsum : addInt64 (addInt64 c.responseTimeout.Nanoseconds d.DiscoveryDuration.Nanoseconds)
      d.DiscoveryTimeout.Nanoseconds
        = c.responseTimeout + d.DiscoveryDuration + d.DiscoveryTimeout :=
    addInt64_exact _ _ _ h0 h1 h2 hfit
  have heq : sendXrtDiscoveryRequest env c requestId request response w
      = sendXrtRequestWithTimeout env c c.requestTopic requestId request response
          (c.responseTimeout + d.DiscoveryDuration + d.DiscoveryTimeout) w := by
    unfold sendXrtDiscoveryRequest
    simp only [ho, hd, Option.bind, hsum]
  refine ⟨heq, ?_⟩
  intro jsonData hm
  rw [heq, sendXrtRequestWithTimeout_trace, hm]
  simp

/-- C1 at base 2s, duration 5s, timeout 1s: the budget is 8s. -/
theorem C1_discovery_budget_is_sum_witness :
    (sendXrtDiscoveryRequest sampleEnv sampleClient "r1" sampleRequest sampleEnv.unmarshalCommon
        World.empty).world.trace
      = [.add 0 "r1", .publish [123, 125] "xrt/request", .fetch 0 "r1" 8000000000] :=
  (C1_discovery_budget_is_sum sampleEnv sampleClient sampleOptions sampleDiscoveryOptions "r1"
    sampleRequest sampleEnv.unmarshalCommon World.empty rfl rfl (by decide) (by decide)
    (by decide) (by decide)).2 [123, 125] rfl

/-- C2: when the client options are nil or the command options are nil,
`sendXrtCommandRequest` returns an error of kind `ContractInvalid` and leaves the world
as it was (no `Add`, no publish); `UpdateLuaScript` and `UpdateComponent` then return an
error of the same kind with the trace of calls and every request map unchanged. -/
theorem C2_command_without_options {ρ : Type} (env : Env) (c : Client) (requestId : String)
    (request : Request) (response : Bytes → Except GoError ρ) (luaScript name : String)
    (config : OptionMap) (w : World)
    (h : c.clientOptions = none ∨ ∃ o, c.clientOptions = some o ∧ o.CommandOptions = none) :
    (∃ e, (sendXrtCommandRequest env c requestId request response w).err = some e
        ∧ Kind e = .ContractInvalid)
      ∧ (sendXrtCommandRequest env c requestId request response w).world = w
      ∧ (∃ e, (UpdateLuaScript env c luaScript w).1 = some e ∧ Kind e = .ContractInvalid)
      ∧ (UpdateLuaScript env c luaScript w).2.trace = w.trace
      ∧ publishCalls (UpdateLuaScript env c luaScript w).2.trace = publishCalls w.trace
      ∧ (UpdateLuaScript env c luaScript w).2.heap = w.heap
      ∧ (∃ e, (UpdateComponent env c name config w).1 = some e ∧ Kind e = .ContractInvalid)
      ∧ (UpdateComponent env c name config w).2.trace = w.trace
      ∧ publishCalls (UpdateComponent env c name config w).2.trace = publishCalls w.trace
      ∧ (UpdateComponent env c name config w).2.heap = w.heap := by
  have hb : c.clientOptions.bind (fun o => o.CommandOptions) = none := by
    rcases h with h | ⟨o, ho, hc⟩
    · simp [h]
    · simp [ho, hc]
  have hsend : ∀ {σ : Type} (id : String) (rq : Request) (r : Bytes → Except GoError σ)
      (w0 : World), sendXrtCommandRequest env c id rq r w0
        = ⟨some (NewCommonEdgeX .ContractInvalid
            "please provide CommandOptions for the command request" none), none, w0⟩ := by
    intro σ id rq r w0
    unfold sendXrtCommandRequest
    rw [hb]
  refine ⟨?_, ?_, ?_, ?_, ?_, ?_, ?_, ?_, ?_, ?_⟩
  · rw [hsend]
    exact ⟨_, rfl, rfl⟩
  · rw [hsend]
  · simp only [UpdateLuaScript, newRequest, hsend]
    exact ⟨_, rfl, rfl⟩
  · simp [UpdateLuaScript, newRequest, hsend]
  · simp [UpdateLuaScript, newRequest, hsend]
  · simp [UpdateLuaScript, newRequest, hsend]
  · simp only [UpdateComponent, newRequest, hsend]
    exact ⟨_, rfl, rfl⟩
  · simp [UpdateComponent, newRequest, hsend]
  · simp [UpdateComponent, newRequest, hsend]
  · simp [UpdateComponent, newRequest, hsend]

/-- C2 at a client whose options carry only the status group. -/
theorem C2_command_without_options_witness :
    (UpdateLuaScript sampleEnv statusOnlyClient "return 1" World.empty).2.trace = []
      ∧ publishCalls (UpdateComponent sampleEnv statusOnlyClient "lua" [] World.empty).2.trace = 0 :=
  have h := C2_command_without_options sampleEnv statusOnlyClient "r1" sampleRequest
    sampleEnv.unmarshalCommon "return 1" "lua" [] World.empty
    (Or.inr ⟨⟨none, none, some ⟨"xrt/status", .callerSupplied 3⟩⟩, rfl, rfl⟩)
  ⟨h.2.2.2.1, h.2.2.2.2.2.2.2.2.1⟩

/-- C3: when the client options are nil or the discovery options are nil, every
discovery-category call fails with an error of kind `ContractInvalid` without any call
on the request map or the message bus: `sendXrtDiscoveryRequest` and `TriggerDiscovery`
leave the world as it was, and `ScanDevice`, once the device converts, leaves the trace
of calls and every request map unchanged. -/
theorem C3_discovery_without_options {ρ : Type} (env : Env) (c : Client) (requestId : String)
    (request : Request) (response : Bytes → Except GoError ρ) (device : Device)
    (xrtDevice : DeviceInfo) (options : OptionMap) (w : World)
    (h : c.clientOptions = none ∨ ∃ o, c.clientOptions = some o ∧ o.DiscoveryOptions = none)
    (hdev : env.toXrtDevice device = .ok xrtDevice) :
    (∃ e, (sendXrtDiscoveryRequest env c requestId request response w).err = some e
        ∧ Kind e = .ContractInvalid)
      ∧ (sendXrtDiscoveryRequest env c requestId request response w).world = w
      ∧ (∃ e, (TriggerDiscovery env c w).1 = some e ∧ Kind e = .ContractInvalid)
      ∧ (TriggerDiscovery env c w).2 = w
      ∧ (∃ e, (ScanDevice env c device options w).1 = some e ∧ Kind e = .ContractInvalid)
      ∧ (ScanDevice env c device options w).2.trace = w.trace
      ∧ publishCalls (ScanDevice env c device options w).2.trace = publishCalls w.trace
      ∧ (ScanDevice env c device options w).2.heap = w.heap := by
  have hb : c.clientOptions.bind (fun o => o.DiscoveryOptions) = none := by
    rcases h with h | ⟨o, ho, hc⟩
    · simp [h]
    · simp [ho, hc]
  have hsend : ∀ {σ : Type} (id : String) (rq : Request) (r : Bytes → Except GoError σ)
      (w0 : World), sendXrtDiscoveryRequest env c id rq r w0
        = ⟨some (NewCommonEdgeX .ContractInvalid
            "please provide DiscoveryOptions for the discovery request" none), none, w0⟩ := by
    intro σ id rq r w0
    unfold sendXrtDiscoveryRequest
    rw [hb]
  have htrig : TriggerDiscovery env c w
      = (some (NewCommonEdgeX .ContractInvalid
          "please provide DiscoveryOptions for the discovery request" none), w) := by
    unfold TriggerDiscovery
    rw [hb]
  refine ⟨?_, ?_, ?_, ?_, ?_, ?_, ?_, ?_⟩
  · rw [hsend]
    exact ⟨_, rfl, rfl⟩
  · rw [hsend]
  · rw [htrig]
    exact ⟨_, rfl, rfl⟩
  · rw [htrig]
  · simp only [ScanDevice, hdev, newRequest, hsend]
    exact ⟨_, rfl, rfl⟩
  · simp [ScanDevice, hdev, newRequest, hsend, World.log]
  · simp [ScanDevice, hdev, newRequest, hsend, World.log]
  · simp [ScanDevice, hdev, newRequest, hsend, World.log]

/-- C3 at a client without client options. -/
theorem C3_discovery_without_options_witness :
    (TriggerDiscovery sampleEnv bareClient World.empty).2 = World.empty
      ∧ (ScanDevice sampleEnv bareClient ⟨"d1", "p1"⟩ [] World.empty).2.trace = [] :=
  have h := C3_discovery_without_options sampleEnv bareClient "r1" sampleRequest
    sampleEnv.unmarshalCommon ⟨"d1", "p1"⟩ ⟨"d1", "p1"⟩ [] World.empty (Or.inl rfl) rfl
  ⟨h.2.2.2.1, h.2.2.2.2.2.1⟩

/-- C4: with command options supplied, `sendXrtCommandRequest` is the single-response
send on `CommandOptions.CommandTopic` with the budget `responseTimeout` alone, whatever
the discovery options are; `sendXrtRequest` is that send on the request topic with the
same budget; `SetResponseTimeout t` changes the response timeout to `t` and no other
field, after which both budgets are `t`. -/
theorem C4_command_topic_and_base_budget {ρ : Type} (env : Env) (c : Client) (o : ClientOptions)
    (co : CommandOptions) (requestId : String) (request : Request)
    (response : Bytes → Except GoError ρ) (t : Duration) (w : World)
    (ho : c.clientOptions = some o) (hc : o.CommandOptions = some co) :
    sendXrtCommandRequest env c requestId request response w
        = sendXrtRequestWithTimeout env c co.CommandTopic requestId request response
            c.responseTimeout w
      ∧ sendXrtRequest env c requestId request response w
        = sendXrtRequestWithTimeout env c c.requestTopic requestId request response
            c.responseTimeout w
      ∧ (∀ jsonData, env.marshal request = .ok jsonData →
          (sendXrtCommandRequest env c requestId request response w).world.trace
            = w.trace ++ [.add c.requestMap requestId, .publish jsonData co.CommandTopic] ++
                (match env.publishBinaryData jsonData co.CommandTopic with
                 | some _ => []
                 | none => [.fetch c.requestMap requestId c.responseTimeout]))
      ∧ (∀ jsonData, env.marshal request = .ok jsonData →
          (sendXrtRequest env c requestId request response w).world.trace
            = w.trace ++ [.add c.requestMap requestId, .publish jsonData c.requestTopic] ++
                (match env.publishBinaryData jsonData c.requestTopic with
                 | some _ => []
                 | none => [.fetch c.requestMap requestId c.responseTimeout]))
      ∧ (SetResponseTimeout c t).responseTimeout = t
      ∧ (SetResponseTimeout c t).requestMap = c.requestMap
      ∧ (SetResponseTimeout c t).requestTopic = c.requestTopic
      ∧ (SetResponseTimeout c t).replyTopic = c.replyTopic
      ∧ (SetResponseTimeout c t).clientOptions = c.clientOptions
      ∧ sendXrtCommandRequest env (SetResponseTimeout c t) requestId request response w
        = sendXrtRequestWithTimeout env c co.CommandTopic requestId request response t w
      ∧ sendXrtRequest env (SetResponseTimeout c t) requestId request response w
        = sendXrtRequestWithTimeout env c c.requestTopic requestId request response t w := by
  have hcmd : ∀ c1 : Client, c1.clientOptions = some o →
      sendXrtCommandRequest env c1 requestId request response w
        = sendXrtRequestWithTimeout env c1 co.CommandTopic requestId request response
            c1.responseTimeout w := by
    intro c1 h1
    unfold sendXrtCommandRequest
    simp only [h1, hc, Option.bind]
  refine ⟨hcmd c ho, rfl, ?_, ?_, rfl, rfl, rfl, rfl, rfl, ?_, rfl⟩
  · intro jsonData hm
    rw [hcmd c ho, sendXrtRequestWithTimeout_trace, hm]
    simp
  · intro jsonData hm
    unfold sendXrtRequest
    rw [sendXrtRequestWithTimeout_trace, hm]
    simp
  · rw [hcmd (SetResponseTimeout c t) ho]
    rfl

/-- C4 at the sample client: the command goes to the command topic with the 2s base
budget although discovery adds 6s, and with a 3s budget after `SetResponseTimeout`. -/
theorem C4_command_topic_and_base_budget_witness :
    (sendXrtCommandRequest sampleEnv sampleClient "r1" sampleRequest sampleEnv.unmarshalCommon
        World.empty).world.trace
        = [.add 0 "r1", .publish [123, 125] "xrt/command", .fetch 0 "r1" 2000000000]
      ∧ sendXrtCommandRequest sampleEnv (SetResponseTimeout sampleClient 3000000000) "r1"
          sampleRequest sampleEnv.unmarshalCommon World.empty
        = sendXrtRequestWithTimeout sampleEnv sampleClient "xrt/command" "r1" sampleRequest
            sampleEnv.unmarshalCommon 3000000000 World.empty :=
  have h := C4_command_topic_and_base_budget sampleEnv sampleClient sampleOptions
    sampleCommandOptions "r1" sampleRequest sampleEnv.unmarshalCommon 3000000000 World.empty
    rfl rfl
  ⟨h.2.2.1 [123, 125] rfl, h.2.2.2.2.2.2.2.2.2.1⟩

/-! ## Lifetime of the correlation entry -/

/-- After a successful publish the fetch routine has removed the entry of the identity
when the single-response send returns. -/
theorem sendXrtRequestWithTimeout_entry_removed {ρ : Type} (env : Env) (c : Client)
    (topic requestId : String) (request : Request) (response : Bytes → Except GoError ρ)
    (t : Duration) (w : World) (jsonData : Bytes) (hm : env.marshal request = .ok jsonData)
    (hp : env.publishBinaryData jsonData topic = none) :
    ((sendXrtRequestWithTimeout env c topic requestId request response t w).world.heap
      c.requestMap).Get requestId = none := by
  unfold sendXrtRequestWithTimeout
  simp only [hm, hp]
  have hf : ((FetchXRTResponse env requestId c.requestMap t
      ((w.Add c.requestMap requestId).record (.publish jsonData topic))).2.heap
        c.requestMap).Get requestId = none := by
    simp [FetchXRTResponse, World.Add, World.record, World.Delete, RequestMap.Add,
      RequestMap.Get, RequestMap.Delete]
    split <;> simp
  rcases hfe : FetchXRTResponse env requestId c.requestMap t
      ((w.Add c.requestMap requestId).record (.publish jsonData topic)) with ⟨r, w1⟩
  rw [hfe] at hf
  simp only [] at hf
  cases r with
  | error e => simpa using hf
  | ok bytes =>
    simp only []
    cases response bytes with
    | error e => simpa using hf
    | ok decoded =>
      simp only []
      cases env.unmarshalCommon bytes with
      | error e => simpa using hf
      | ok common =>
        simp only []
        cases common.Result.Error <;> simpa using hf

/-- C5: evaluation on a message bus whose publish fails.  Both sends register the
identity `r1` once, publish once, return the publish error, and the request map still
holds the entry of `r1` afterwards: the entry is not removed on this return path. -/
theorem C5_entry_left_after_publish_error :
    (sendXrtRequestWithTimeout publishFailsEnv sampleClient "xrt/request" "r1" sampleRequest
        publishFailsEnv.unmarshalCommon 2000000000 World.empty).err
        = some (.wrap .CommunicationError "failed to send the XRT request"
            (.edgex .CommunicationError "not connected"))
      ∧ (sendXrtRequestWithTimeout publishFailsEnv sampleClient "xrt/request" "r1" sampleRequest
          publishFailsEnv.unmarshalCommon 2000000000 World.empty).world.trace
        = [.add 0 "r1", .publish [123, 125] "xrt/request"]
      ∧ ((sendXrtRequestWithTimeout publishFailsEnv sampleClient "xrt/request" "r1" sampleRequest
          publishFailsEnv.unmarshalCommon 2000000000 World.empty).world.heap 0).Get "r1"
        = some []
      ∧ (sendXrtRequestWithSubTimeout publishFailsEnv sampleClient "xrt/request" "r1"
          sampleRequest (fun payloads => Except.ok payloads) 500000000 World.empty).world.trace
        = [.add 0 "r1", .publish [123, 125] "xrt/request"]
      ∧ ((sendXrtRequestWithSubTimeout publishFailsEnv sampleClient "xrt/request" "r1"
          sampleRequest (fun payloads => Except.ok payloads) 500000000 World.empty).world.heap
            0).Get "r1"
        = some [] := by
  refine ⟨rfl, rfl, ?_, rfl, ?_⟩ <;>
    simp [sendXrtRequestWithTimeout, sendXrtRequestWithSubTimeout, publishFailsEnv, sampleEnv,
      sampleClient, World.Add, World.record, World.empty, RequestMap.Add, RequestMap.Get]

/-! ## Decoding and application errors -/

/-- C6: the single-response send returns nil exactly when serialising, publish, fetch
and both decodes succeed and the result section carries no error; and for every payload
the fetch returns, a payload that does not decode into the expected response or into
the common response gives an error of kind `ServerError`, while a payload that decodes
twice with an error in its result section gives that error wrapped, with its kind. -/
theorem C6_decode_and_application_errors {ρ : Type} (env : Env) (c : Client)
    (topic requestId : String) (request : Request) (response : Bytes → Except GoError ρ)
    (t : Duration) (w : World) :
    ((sendXrtRequestWithTimeout env c topic requestId request response t w).err = none ↔
        ∃ jsonData payload w1 decoded common,
          env.marshal request = .ok jsonData
          ∧ env.publishBinaryData jsonData topic = none
          ∧ FetchXRTResponse env requestId c.requestMap t
              ((w.Add c.requestMap requestId).record (.publish jsonData topic)) = (.ok payload, w1)
          ∧ response payload = .ok decoded
          ∧ env.unmarshalCommon payload = .ok common
          ∧ common.Result.Error = none)
      ∧ ∀ jsonData payload w1,
          env.marshal request = .ok jsonData →
          env.publishBinaryData jsonData topic = none →
          FetchXRTResponse env requestId c.requestMap t
            ((w.Add c.requestMap requestId).record (.publish jsonData topic)) = (.ok payload, w1) →
          (∀ e, response payload = .error e →
            (sendXrtRequestWithTimeout env c topic requestId request response t w).err
                = some (NewCommonEdgeX .ServerError
                    "failed to JSON decoding command response: %v" (some e))
              ∧ Kind (NewCommonEdgeX .ServerError
                    "failed to JSON decoding command response: %v" (some e)) = .ServerError)
          ∧ (∀ decoded e, response payload = .ok decoded → env.unmarshalCommon payload = .error e →
            (sendXrtRequestWithTimeout env c topic requestId request response t w).err
                = some (NewCommonEdgeX .ServerError
                    "failed to JSON decoding command response: %v" (some e))
              ∧ Kind (NewCommonEdgeX .ServerError
                    "failed to JSON decoding command response: %v" (some e)) = .ServerError)
          ∧ (∀ decoded common resultErr, response payload = .ok decoded →
              env.unmarshalCommon payload = .ok common → common.Result.Error = some resultErr →
            (sendXrtRequestWithTimeout env c topic requestId request response t w).err
                = some (NewCommonEdgeXWrapper resultErr)
              ∧ Kind (NewCommonEdgeXWrapper resultErr) = Kind resultErr) := by
  constructor
  · constructor
    · intro h
      unfold sendXrtRequestWithTimeout at h
      cases hm : env.marshal request with
      | error e => simp [hm] at h
      | ok jsonData =>
        cases hp : env.publishBinaryData jsonData topic with
        | some e => simp [hm, hp] at h
        | none =>
          rcases hf : FetchXRTResponse env requestId c.requestMap t
            ((w.Add c.requestMap requestId).record (.publish jsonData topic)) with ⟨r, w1⟩
          simp only [hm, hp, hf] at h
          cases r with
          | error e => simp at h
          | ok payload =>
            simp only [] at h
            cases hr : response payload with
            | error e => simp [hr] at h
            | ok decoded =>
              cases hu : env.unmarshalCommon payload with
              | error e => simp [hr, hu] at h
              | ok common =>
                cases he : common.Result.Error with
                | some resultErr => simp [hr, hu, he] at h
                | none => exact ⟨jsonData, payload, w1, decoded, common, rfl, hp, hf, hr, hu, he⟩
    · rintro ⟨jsonData, payload, w1, decoded, common, hm, hp, hf, hr, hu, he⟩
      unfold sendXrtRequestWithTimeout
      simp only [hm, hp, hf, hr, hu, he]
  · intro jsonData payload w1 hm hp hf
    refine ⟨?_, ?_, ?_⟩
    · intro e hr
      refine ⟨?_, rfl⟩
      unfold sendXrtRequestWithTimeout
      simp only [hm, hp, hf, hr]
    · intro decoded e hr hu
      refine ⟨?_, rfl⟩
      unfold sendXrtRequestWithTimeout
      simp only [hm, hp, hf, hr, hu]
    · intro decoded common resultErr hr hu he
      refine ⟨?_, Kind_NewCommonEdgeXWrapper resultErr⟩
      unfold sendXrtRequestWithTimeout
      simp only [hm, hp, hf, hr, hu, he]

/-- C6 at a responder whose well-formed reply carries the error "no such device": the
send returns that error wrapped, of kind `EntityDoesNotExist`, not a decode error. -/
theorem C6_decode_and_application_errors_witness :
    (sendXrtRequestWithTimeout resultErrorEnv sampleClient "xrt/request" "r1" sampleRequest
        resultErrorEnv.unmarshalCommon 2000000000 World.empty).err
        = some (NewCommonEdgeXWrapper (.edgex .EntityDoesNotExist "no such device"))
      ∧ Kind (NewCommonEdgeXWrapper (.edgex .EntityDoesNotExist "no such device"))
        = Kind (.edgex .EntityDoesNotExist "no such device") :=
  ((C6_decode_and_application_errors resultErrorEnv sampleClient "xrt/request" "r1" sampleRequest
    resultErrorEnv.unmarshalCommon 2000000000 World.empty).2 [123, 125] []
    (FetchXRTResponse resultErrorEnv "r1" 0 2000000000
      ((World.empty.Add 0 "r1").record (.publish [123, 125] "xrt/request"))).2
    rfl rfl rfl).2.2
    ⟨"r1", ⟨some (.edgex .EntityDoesNotExist "no such device")⟩⟩ ⟨"r1", ⟨some (.edgex .EntityDoesNotExist "no such device")⟩⟩
    (.edgex .EntityDoesNotExist "no such device") rfl rfl rfl

/-! ## Routing of replies -/

theorem subscribeEach_ok (env : Env) (subs : List Subscription) :
    ∀ w : World, (∀ s ∈ subs, env.subscribeBinaryData s.topic = none) →
      (subscribeEach env subs w).1 = none
        ∧ (subscribeEach env subs w).2.running = w.running ++ subs.map Task.listener
        ∧ (subscribeEach env subs w).2.trace
            = w.trace ++ subs.map (fun s => Event.subscribe s.topic)
        ∧ (subscribeEach env subs w).2.heap = w.heap := by
  induction subs with
  | nil => intro w _; simp [subscribeEach]
  | cons sub rest ih =>
    intro w h
    have hs : env.subscribeBinaryData sub.topic = none := h sub (by simp)
    have hr := ih (((((w.spawn (.listener sub)).log .info
      "Waiting for messages from the MessageBus on the '%s' topic").record
        (.subscribe sub.topic))).log .debug "Subscribed to %s")
      (fun s hmem => h s (by simp [hmem]))
    simp only [subscribeEach, hs]
    refine ⟨hr.1, ?_, ?_, ?_⟩
    · rw [hr.2.1]; simp [World.spawn, World.log, World.record]
    · rw [hr.2.2.1]; simp [World.spawn, World.log, World.record]
    · rw [hr.2.2.2]; simp [World.spawn, World.log, World.record]

theorem subscribeEach_fail (env : Env) (pre : List Subscription) (sub : Subscription)
    (post : List Subscription) (busErr : GoError) :
    ∀ w : World, (∀ s ∈ pre, env.subscribeBinaryData s.topic = none) →
      env.subscribeBinaryData sub.topic = some busErr →
      (subscribeEach env (pre ++ sub :: post) w).1
          = some (NewCommonEdgeX (Kind busErr) ("subscribe to topic '" ++ sub.topic ++ "' failed")
              (some busErr))
        ∧ (subscribeEach env (pre ++ sub :: post) w).2.running
            = w.running ++ (pre ++ [sub]).map Task.listener
        ∧ (subscribeEach env (pre ++ sub :: post) w).2.trace
            = w.trace ++ (pre ++ [sub]).map (fun s => Event.subscribe s.topic) := by
  induction pre with
  | nil =>
    intro w _ hf
    simp [subscribeEach, hf, World.spawn, World.log, World.record]
  | cons p rest ih =>
    intro w h hf
    have hs : env.subscribeBinaryData p.topic = none := h p (by simp)
    have hr := ih (((((w.spawn (.listener p)).log .info
      "Waiting for messages from the MessageBus on the '%s' topic").record
        (.subscribe p.topic))).log .debug "Subscribed to %s")
      (fun s hmem => h s (by simp [hmem])) hf
    simp only [List.cons_append, subscribeEach, hs]
    refine ⟨hr.1, hr.2.1.trans ?_, hr.2.2.trans ?_⟩
    · simp [World.spawn, World.log, World.record]
    · simp [World.spawn, World.log, World.record]

theorem exists_first_failure (env : Env) (subs : List Subscription)
    (h : ∃ s ∈ subs, env.subscribeBinaryData s.topic ≠ none) :
    ∃ pre sub post busErr, subs = pre ++ sub :: post
      ∧ (∀ s ∈ pre, env.subscribeBinaryData s.topic = none)
      ∧ env.subscribeBinaryData sub.topic = some busErr := by
  induction subs with
  | nil => simp at h
  | cons s rest ih =>
    cases hs : env.subscribeBinaryData s.topic with
    | some e => exact ⟨[], s, rest, e, rfl, by simp, hs⟩
    | none =>
      have h2 : ∃ s2 ∈ rest, env.subscribeBinaryData s2.topic ≠ none := by
        rcases h with ⟨x, hx, hne⟩
        rcases List.mem_cons.mp hx with rfl | hx
        · exact absurd hs hne
        · exact ⟨x, hx, hne⟩
      rcases ih h2 with ⟨pre, sub, post, e, heq, hpre, hsub⟩
      refine ⟨s :: pre, sub, post, e, by simp [heq], ?_, hsub⟩
      intro y hy
      rcases List.mem_cons.mp hy with rfl | hy
      · exact hs
      · exact hpre y hy

theorem Task.step_done_running (env : Env) (t : Task) (w : World) :
    (t.step env .done w).running = w.running.erase t := by
  cases t with
  | errorReporter => simp [Task.step, World.log]
  | listener sub =>
    simp only [Task.step]
    cases env.unsubscribe sub.topic <;> simp [World.log, World.record]

theorem Task.step_done_trace (env : Env) (t : Task) (w : World) :
    (t.step env .done w).trace = w.trace ++ t.unsubscribeEvent.toList := by
  cases t with
  | errorReporter => simp [Task.step, World.log, Task.unsubscribeEvent]
  | listener sub =>
    simp only [Task.step]
    cases env.unsubscribe sub.topic <;> simp [World.log, World.record, Task.unsubscribeEvent]

theorem foldl_done (env : Env) (l : List Task) :
    ∀ w : World, w.running = l →
      (l.foldl (fun acc t => t.step env .done acc) w).running = []
        ∧ (l.foldl (fun acc t => t.step env .done acc) w).trace
            = w.trace ++ l.filterMap Task.unsubscribeEvent := by
  induction l with
  | nil => intro w h; simp [h]
  | cons t rest ih =>
    intro w h
    have hrun : (t.step env .done w).running = rest := by
      rw [Task.step_done_running, h]; simp
    have hr := ih (t.step env .done w) hrun
    simp only [List.foldl_cons]
    refine ⟨hr.1, ?_⟩
    rw [hr.2, Task.step_done_trace]
    cases t <;> simp [Task.unsubscribeEvent, List.filterMap_cons]

/-- After cancellation no goroutine is running, and the trace has grown by one
`Unsubscribe` call per listener that was running, for the topic of that listener. -/
theorem cancel_spec (env : Env) (w : World) :
    (cancel env w).running = []
      ∧ (cancel env w).trace = w.trace ++ w.running.filterMap Task.unsubscribeEvent :=
  foldl_done env w.running w rfl

theorem unsubscribeCalls_append (topic : String) (l1 l2 : List Event) :
    unsubscribeCalls topic (l1 ++ l2) = unsubscribeCalls topic l1 + unsubscribeCalls topic l2 := by
  simp [unsubscribeCalls]

theorem unsubscribeCalls_listeners (topic : String) (subs : List Subscription) :
    unsubscribeCalls topic ((subs.map Task.listener).filterMap Task.unsubscribeEvent)
      = (subs.map (fun s => s.topic)).count topic := by
  induction subs with
  | nil => simp [unsubscribeCalls]
  | cons s rest ih =>
    simp only [List.map_cons, List.filterMap_cons, Task.unsubscribeEvent]
    unfold unsubscribeCalls at ih ⊢
    rw [List.count_cons, List.count_cons, ih]
    by_cases h : s.topic = topic <;> simp [h]

/-! ## Construction, listeners and shutdown -/

/-- C8, as stated, fails: on a message bus whose subscribe fails, `NewXrtClient` returns
an error while the error-reporting goroutine and the listener of the reply topic, both
started before the subscribe, are still running. -/
theorem C8_goroutines_running_after_failed_subscribe :
    (NewXrtClient subscribeFailsEnv "xrt/request" "xrt/reply" 2000000000 none World.empty).2.1
        ≠ none
      ∧ (NewXrtClient subscribeFailsEnv "xrt/request" "xrt/reply" 2000000000 none
          World.empty).2.2.running
        = [.errorReporter, .listener ⟨"xrt/reply", .commandReply 0⟩] := by
  decide

/-- C8, amended: when `SubscribeBinaryData` fails for some derived subscription,
`NewXrtClient` returns a non-nil error of the kind of the bus error.  The goroutines
started by then, the error reporter and one listener for each subscription up to and
including the first failing one, are running when it returns, no listener exists for a
later subscription, and all of them return once the lifetime context is cancelled. -/
theorem C8_failed_subscribe_fails_construction (env : Env) (requestTopic replyTopic : String)
    (responseTimeout : Duration) (clientOptions : Option ClientOptions) (w : World)
    (hfail : ∃ s ∈ createSubscriptions
        ⟨w.nextPtr, requestTopic, replyTopic, responseTimeout, clientOptions⟩ clientOptions,
        env.subscribeBinaryData s.topic ≠ none) :
    (NewXrtClient env requestTopic replyTopic responseTimeout clientOptions w).1
        = ⟨w.nextPtr, requestTopic, replyTopic, responseTimeout, clientOptions⟩
      ∧ (∃ pre sub post busErr e,
          createSubscriptions ⟨w.nextPtr, requestTopic, replyTopic, responseTimeout, clientOptions⟩
              clientOptions = pre ++ sub :: post
            ∧ (∀ s ∈ pre, env.subscribeBinaryData s.topic = none)
            ∧ env.subscribeBinaryData sub.topic = some busErr
            ∧ (NewXrtClient env requestTopic replyTopic responseTimeout clientOptions w).2.1
                = some e
            ∧ Kind e = Kind busErr
            ∧ (NewXrtClient env requestTopic replyTopic responseTimeout clientOptions w).2.2.running
                = w.running ++ Task.errorReporter :: (pre ++ [sub]).map Task.listener)
      ∧ (cancel env
          (NewXrtClient env requestTopic replyTopic responseTimeout clientOptions w).2.2).running
        = [] := by
  refine ⟨?_, ?_, (cancel_spec env _).1⟩
  · unfold NewXrtClient
    simp only []
    split <;> rfl
  · rcases exists_first_failure env _ hfail with ⟨pre, sub, post, busErr, heq, hpre, hsub⟩
    have hs := subscribeEach_fail env pre sub post busErr
      (({ w with heap := Function.update w.heap w.nextPtr NewRequestMap,
                 nextPtr := w.nextPtr + 1 } : World).spawn .errorReporter) hpre hsub
    refine ⟨pre, sub, post, busErr,
      NewCommonEdgeX (Kind (NewCommonEdgeX (Kind busErr)
        ("subscribe to topic '" ++ sub.topic ++ "' failed") (some busErr)))
        "failed to init subscriptions"
        (some (NewCommonEdgeX (Kind busErr)
          ("subscribe to topic '" ++ sub.topic ++ "' failed") (some busErr))),
      heq, hpre, hsub, ?_, ?_, ?_⟩
    · unfold NewXrtClient initSubscriptions
      simp only [heq]
      rcases hse : subscribeEach env (pre ++ sub :: post)
        (({ w with heap := Function.update w.heap w.nextPtr NewRequestMap,
                   nextPtr := w.nextPtr + 1 } : World).spawn .errorReporter) with ⟨r, w1⟩
      rw [hse] at hs
      simp only [] at hs
      rw [hs.1]
    · rw [Kind_NewCommonEdgeX_Kind, Kind_NewCommonEdgeX_Kind]
    · unfold NewXrtClient initSubscriptions
      simp only [heq]
      rcases hse : subscribeEach env (pre ++ sub :: post)
        (({ w with heap := Function.update w.heap w.nextPtr NewRequestMap,
                   nextPtr := w.nextPtr + 1 } : World).spawn .errorReporter) with ⟨r, w1⟩
      rw [hse] at hs
      simp only [] at hs
      rw [hs.1]
      simp only []
      rw [hs.2.1]
      simp [World.spawn]

/-- C8, amended, on a bus whose subscribe always fails, with all sample options. -/
theorem C8_failed_subscribe_fails_construction_witness :
    (cancel subscribeFailsEnv
      (NewXrtClient subscribeFailsEnv "xrt/request" "xrt/reply" 2000000000 (some sampleOptions)
        World.empty).2.2).running = [] :=
  (C8_failed_subscribe_fails_construction subscribeFailsEnv "xrt/request" "xrt/reply" 2000000000
    (some sampleOptions) World.empty
    ⟨⟨"xrt/reply", .commandReply 0⟩, by decide, by decide⟩).2.2

/-- C9, as stated, fails: when the command options and the discovery options name the
same discovery topic, the derived subscriptions do not have pairwise distinct topics, two
listeners own that topic, and after cancellation the topic has received two `Unsubscribe`
calls. -/
theorem C9_shared_topic_unsubscribed_twice :
    ¬ ((createSubscriptions sharedTopicClient sharedTopicClient.clientOptions).map
        (fun s => s.topic)).Nodup
      ∧ (initSubscriptions sampleEnv sharedTopicClient sharedTopicClient.clientOptions
          World.empty).2.running
        = [.errorReporter, .listener ⟨"xrt/reply", .commandReply 0⟩,
            .listener ⟨"xrt/discovery", .callerSupplied 2⟩,
            .listener ⟨"xrt/discovery", .callerSupplied 1⟩]
      ∧ unsubscribeCalls "xrt/discovery"
          (cancel sampleEnv (initSubscriptions sampleEnv sharedTopicClient
            sharedTopicClient.clientOptions World.empty).2).trace = 2 := by
  decide

/-- C9, amended: when every subscribe succeeds, `initSubscriptions` starts exactly one
listener per derived subscription; once the lifetime context is cancelled every
goroutine has returned, whatever `Unsubscribe` returns, and each topic has received one
`Unsubscribe` call per subscription on it, which is exactly one call for each subscribed
topic when the derived topics are pairwise distinct. -/
theorem C9_one_unsubscribe_per_listener (env : Env) (c : Client)
    (clientOptions : Option ClientOptions) (w : World) (hrun : w.running = [])
    (hok : ∀ s ∈ createSubscriptions c clientOptions, env.subscribeBinaryData s.topic = none) :
    (initSubscriptions env c clientOptions w).1 = none
      ∧ (initSubscriptions env c clientOptions w).2.running
        = Task.errorReporter :: (createSubscriptions c clientOptions).map Task.listener
      ∧ (cancel env (initSubscriptions env c clientOptions w).2).running = []
      ∧ (∀ topic,
          unsubscribeCalls topic (cancel env (initSubscriptions env c clientOptions w).2).trace
            = unsubscribeCalls topic w.trace
              + ((createSubscriptions c clientOptions).map (fun s => s.topic)).count topic)
      ∧ (((createSubscriptions c clientOptions).map (fun s => s.topic)).Nodup →
          ∀ s ∈ createSubscriptions c clientOptions,
            unsubscribeCalls s.topic
                (cancel env (initSubscriptions env c clientOptions w).2).trace
              = unsubscribeCalls s.topic w.trace + 1) := by
  have hs := subscribeEach_ok env (createSubscriptions c clientOptions)
    (w.spawn .errorReporter) hok
  have hrunning : (initSubscriptions env c clientOptions w).2.running
      = Task.errorReporter :: (createSubscriptions c clientOptions).map Task.listener := by
    unfold initSubscriptions
    simp only []
    rw [hs.2.1]
    simp [World.spawn, hrun]
  have htrace : (initSubscriptions env c clientOptions w).2.trace
      = w.trace ++ (createSubscriptions c clientOptions).map (fun s => Event.subscribe s.topic) := by
    unfold initSubscriptions
    simp only []
    rw [hs.2.2.1]
    simp [World.spawn]
  have hcount : ∀ topic,
      unsubscribeCalls topic (cancel env (initSubscriptions env c clientOptions w).2).trace
        = unsubscribeCalls topic w.trace
          + ((createSubscriptions c clientOptions).map (fun s => s.topic)).count topic := by
    intro topic
    rw [(cancel_spec env _).2, hrunning, htrace, unsubscribeCalls_append,
      unsubscribeCalls_append]
    have h0 : unsubscribeCalls topic
        ((createSubscriptions c clientOptions).map (fun s => Event.subscribe s.topic)) = 0 := by
      unfold unsubscribeCalls
      rw [List.count_eq_zero]
      simp
    rw [h0, List.filterMap_cons]
    simp only [Task.unsubscribeEvent, Nat.add_zero]
    rw [unsubscribeCalls_listeners]
  refine ⟨hs.1, hrunning, (cancel_spec env _).1, hcount, ?_⟩
  intro hnodup s hmem
  rw [hcount s.topic]
  have hm : s.topic ∈ (createSubscriptions c clientOptions).map (fun s => s.topic) :=
    List.mem_map.mpr ⟨s, hmem, rfl⟩
  rw [List.count_eq_one_of_mem hnodup hm]

/-- C9, amended, at the sample client, whose three topics are distinct: the discovery
topic receives exactly one `Unsubscribe` call. -/
theorem C9_one_unsubscribe_per_listener_witness :
    unsubscribeCalls "xrt/discovery"
      (cancel sampleEnv (initSubscriptions sampleEnv sampleClient sampleClient.clientOptions
        World.empty).2).trace = unsubscribeCalls "xrt/discovery" World.empty.trace + 1 :=
  (C9_one_unsubscribe_per_listener sampleEnv sampleClient sampleClient.clientOptions World.empty
    rfl (fun _ _ => rfl)).2.2.2.2 (by decide) ⟨"xrt/discovery", .callerSupplied 1⟩ (by decide)

/-- C10, as stated, fails: for a client whose reply topic is empty the derived list
holds no subscription on the reply topic and none bound to the reply handler, with
client options or without. -/
theorem C10_no_reply_subscription_for_empty_topic :
    createSubscriptions noReplyTopicClient none = []
      ∧ ∀ s ∈ createSubscriptions noReplyTopicClient noReplyTopicClient.clientOptions,
          s.topic ≠ noReplyTopicClient.replyTopic
            ∧ s.messageHandler ≠ .commandReply noReplyTopicClient.requestMap := by
  decide

/-- C10, amended: for every client whose reply topic is not empty and every client
options, nil included, the derived list starts with a subscription on the reply topic
whose handler is the reply handler of the client's own request map: invoking it is
`commandReplyHandler` on that map. -/
theorem C10_reply_subscription_first (c : Client) (clientOptions : Option ClientOptions)
    (h : c.replyTopic ≠ "") :
    (createSubscriptions c clientOptions).head?
        = some ⟨c.replyTopic, .commandReply c.requestMap⟩
      ∧ (⟨c.replyTopic, .commandReply c.requestMap⟩ : Subscription)
          ∈ createSubscriptions c clientOptions
      ∧ ∀ (env : Env) (message : MessageEnvelope) (w : World),
          (MessageHandler.commandReply c.requestMap).invoke env message w
            = commandReplyHandler env c.requestMap message w := by
  have hhead : (createSubscriptions c clientOptions).head?
      = some ⟨c.replyTopic, .commandReply c.requestMap⟩ := by
    unfold createSubscriptions
    simp only [h, ne_eq, not_false_eq_true, if_true, List.nil_append, subscription]
    cases clientOptions with
    | none => rfl
    | some o =>
      simp only []
      rcases o with ⟨co, dopt, so⟩
      cases co <;> cases dopt <;> cases so <;> simp only [] <;>
        (repeat' split) <;> simp
  refine ⟨hhead, ?_, fun _ _ _ => rfl⟩
  exact List.mem_of_mem_head? hhead

/-- C10, amended, at the sample client. -/
theorem C10_reply_subscription_first_witness :
    (createSubscriptions sampleClient sampleClient.clientOptions).head?
      = some ⟨"xrt/reply", .commandReply 0⟩ :=
  (C10_reply_subscription_first sampleClient sampleClient.clientOptions (by decide)).1

/-! ## The derived subscription list -/

/-- Every derived subscription has a non-empty topic and a non-nil handler. -/
theorem createSubscriptions_wellformed (c : Client) (clientOptions : Option ClientOptions) :
    ∀ s ∈ createSubscriptions c clientOptions, s.topic ≠ "" ∧ s.messageHandler ≠ .nil := by
  intro s hs
  unfold createSubscriptions at hs
  simp only [subscription, List.nil_append] at hs
  have hreply : ∀ x : Subscription,
      x ∈ (if c.replyTopic ≠ "" then [(⟨c.replyTopic, .commandReply c.requestMap⟩ : Subscription)]
        else []) → x.topic ≠ "" ∧ x.messageHandler ≠ .nil := by
    intro x hx
    split at hx
    · rename_i hne
      simp only [List.mem_singleton] at hx
      subst hx
      exact ⟨hne, by simp⟩
    · simp at hx
  have hstep : ∀ (l : List Subscription) (topic : String) (handler : MessageHandler)
      (x : Subscription),
      (∀ y ∈ l, y.topic ≠ "" ∧ y.messageHandler ≠ .nil) →
      x ∈ (if topic ≠ "" ∧ handler ≠ .nil then l ++ [⟨topic, handler⟩] else l) →
      x.topic ≠ "" ∧ x.messageHandler ≠ .nil := by
    intro l topic handler x hl hx
    split at hx
    · rename_i hcond
      rcases List.mem_append.mp hx with h | h
      · exact hl x h
      · simp only [List.mem_singleton] at h
        subst h
        exact hcond
    · exact hl x hx
  cases clientOptions with
  | none => exact hreply s hs
  | some o =>
    rcases o with ⟨co, dopt, so⟩
    simp only [] at hs
    have h1 : ∀ y ∈ (match co with
        | some g =>
          if g.DiscoveryTopic ≠ "" ∧ g.DiscoveryMessageHandler ≠ .nil then
            (if c.replyTopic ≠ "" then
              [(⟨c.replyTopic, .commandReply c.requestMap⟩ : Subscription)] else [])
              ++ [(⟨g.DiscoveryTopic, g.DiscoveryMessageHandler⟩ : Subscription)]
          else (if c.replyTopic ≠ "" then
              [(⟨c.replyTopic, .commandReply c.requestMap⟩ : Subscription)] else [])
        | none => (if c.replyTopic ≠ "" then
              [(⟨c.replyTopic, .commandReply c.requestMap⟩ : Subscription)] else [])),
        y.topic ≠ "" ∧ y.messageHandler ≠ .nil := by
      intro y hy
      cases co with
      | none => exact hreply y hy
      | some g => exact hstep _ _ _ y hreply hy
    cases dopt with
    | none =>
      cases so with
      | none => exact h1 s hs
      | some g3 => exact hstep _ _ _ s h1 hs
    | some g2 =>
      have h2 := fun y hy => hstep _ g2.DiscoveryTopic g2.DiscoveryMessageHandler y h1 hy
      cases so with
      | none => exact h2 s hs
      | some g3 => exact hstep _ _ _ s h2 hs

/-- C11: the list that `createSubscriptions` returns is, in this order, the reply
subscription (for a non-empty reply topic), then the subscription on the discovery topic
of the command options, on the discovery topic of the discovery options and on the
status topic, each present exactly when its group is not nil, its topic is not empty and
its handler is not nil, and each bound to the handler of its group; the list has at most
four elements, and with nil client options it holds nothing beyond the reply
subscription. -/
theorem C11_subscription_list (c : Client) (o : ClientOptions) :
    createSubscriptions c (some o)
        = (if c.replyTopic ≠ "" then [⟨c.replyTopic, .commandReply c.requestMap⟩] else [])
          ++ (match o.CommandOptions with
              | some g =>
                if g.DiscoveryTopic ≠ "" ∧ g.DiscoveryMessageHandler ≠ .nil
                then [⟨g.DiscoveryTopic, g.DiscoveryMessageHandler⟩] else []
              | none => [])
          ++ (match o.DiscoveryOptions with
              | some g =>
                if g.DiscoveryTopic ≠ "" ∧ g.DiscoveryMessageHandler ≠ .nil
                then [⟨g.DiscoveryTopic, g.DiscoveryMessageHandler⟩] else []
              | none => [])
          ++ (match o.StatusOptions with
              | some g =>
                if g.StatusTopic ≠ "" ∧ g.StatusMessageHandler ≠ .nil
                then [⟨g.StatusTopic, g.StatusMessageHandler⟩] else []
              | none => [])
      ∧ (∀ g, o.CommandOptions = some g →
          ((⟨g.DiscoveryTopic, g.DiscoveryMessageHandler⟩ : Subscription)
              ∈ createSubscriptions c (some o)
            ↔ g.DiscoveryTopic ≠ "" ∧ g.DiscoveryMessageHandler ≠ .nil))
      ∧ (∀ g, o.DiscoveryOptions = some g →
          ((⟨g.DiscoveryTopic, g.DiscoveryMessageHandler⟩ : Subscription)
              ∈ createSubscriptions c (some o)
            ↔ g.DiscoveryTopic ≠ "" ∧ g.DiscoveryMessageHandler ≠ .nil))
      ∧ (∀ g, o.StatusOptions = some g →
          ((⟨g.StatusTopic, g.StatusMessageHandler⟩ : Subscription)
              ∈ createSubscriptions c (some o)
            ↔ g.StatusTopic ≠ "" ∧ g.StatusMessageHandler ≠ .nil))
      ∧ (createSubscriptions c (some o)).length ≤ 4
      ∧ createSubscriptions c none
        = (if c.replyTopic ≠ "" then [⟨c.replyTopic, .commandReply c.requestMap⟩] else []) := by
  have heq : createSubscriptions c (some o)
      = (if c.replyTopic ≠ "" then [⟨c.replyTopic, .commandReply c.requestMap⟩] else [])
        ++ (match o.CommandOptions with
            | some g =>
              if g.DiscoveryTopic ≠ "" ∧ g.DiscoveryMessageHandler ≠ .nil
              then [⟨g.DiscoveryTopic, g.DiscoveryMessageHandler⟩] else []
            | none => [])
        ++ (match o.DiscoveryOptions with
            | some g =>
              if g.DiscoveryTopic ≠ "" ∧ g.DiscoveryMessageHandler ≠ .nil
              then [⟨g.DiscoveryTopic, g.DiscoveryMessageHandler⟩] else []
            | none => [])
        ++ (match o.StatusOptions with
            | some g =>
              if g.StatusTopic ≠ "" ∧ g.StatusMessageHandler ≠ .nil
              then [⟨g.StatusTopic, g.StatusMessageHandler⟩] else []
            | none => []) := by
    unfold createSubscriptions
    rcases o with ⟨co, dopt, so⟩
    simp only [subscription, List.nil_append]
    cases co <;> cases dopt <;> cases so <;> simp only [] <;>
      (repeat' split) <;> simp
  refine ⟨heq, ?_, ?_, ?_, ?_, ?_⟩
  · intro g hg
    constructor
    · intro hmem
      exact createSubscriptions_wellformed c (some o) _ hmem
    · intro hc
      rw [heq, hg]
      simp [hc]
  · intro g hg
    constructor
    · intro hmem
      exact createSubscriptions_wellformed c (some o) _ hmem
    · intro hc
      rw [heq, hg]
      simp [hc]
  · intro g hg
    constructor
    · intro hmem
      exact createSubscriptions_wellformed c (some o) _ hmem
    · intro hc
      rw [heq, hg]
      simp [hc]
  · rw [heq]
    simp only [List.length_append]
    have h1 : (if c.replyTopic ≠ "" then
        [(⟨c.replyTopic, .commandReply c.requestMap⟩ : Subscription)] else []).length ≤ 1 := by
      split <;> simp
    have h2 : (match o.CommandOptions with
        | some g =>
          if g.DiscoveryTopic ≠ "" ∧ g.DiscoveryMessageHandler ≠ .nil
          then [(⟨g.DiscoveryTopic, g.DiscoveryMessageHandler⟩ : Subscription)] else []
        | none => []).length ≤ 1 := by
      split
      · split <;> simp
      · simp
    have h3 : (match o.DiscoveryOptions with
        | some g =>
          if g.DiscoveryTopic ≠ "" ∧ g.DiscoveryMessageHandler ≠ .nil
          then [(⟨g.DiscoveryTopic, g.DiscoveryMessageHandler⟩ : Subscription)] else []
        | none => []).length ≤ 1 := by
      split
      · split <;> simp
      · simp
    have h4 : (match o.StatusOptions with
        | some g =>
          if g.StatusTopic ≠ "" ∧ g.StatusMessageHandler ≠ .nil
          then [(⟨g.StatusTopic, g.StatusMessageHandler⟩ : Subscription)] else []
        | none => []).length ≤ 1 := by
      split
      · split <;> simp
      · simp
    omega
  · unfold createSubscriptions
    simp only [subscription, List.nil_append]

/-- C11 at the sample client with all three groups: four subscriptions in the order
reply, command discovery, discovery, status. -/
theorem C11_subscription_list_witness :
    createSubscriptions sampleClient (some fullOptions)
        = [⟨"xrt/reply", .commandReply 0⟩, ⟨"xrt/command/discovery", .callerSupplied 2⟩,
            ⟨"xrt/discovery", .callerSupplied 1⟩, ⟨"xrt/status", .callerSupplied 3⟩]
      ∧ (⟨"xrt/status", .callerSupplied 3⟩ : Subscription)
          ∈ createSubscriptions sampleClient (some fullOptions) :=
  have h := C11_subscription_list sampleClient fullOptions
  ⟨h.1.trans (by decide), (h.2.2.2.1 ⟨"xrt/status", .callerSupplied 3⟩ rfl).mpr (by decide)⟩

/-! ## Order of registration, publish and fetch -/

theorem FetchXRTResWithSubTimeout_trace {ρ : Type} (env : Env) (requestId : String)
    (requestMap : Nat) (t : Duration) (response : List Bytes → Except GoError ρ) (w : World) :
    (FetchXRTResWithSubTimeout env requestId requestMap t response w).2.trace
      = w.trace ++ [.fetchSub requestMap requestId t] := by
  unfold FetchXRTResWithSubTimeout
  simp only [World.record]
  split <;> rfl

/-- The calls a fan-in send makes, in order. -/
theorem sendXrtRequestWithSubTimeout_trace {ρ : Type} (env : Env) (c : Client)
    (topic requestId : String) (request : Request) (response : List Bytes → Except GoError ρ)
    (t : Duration) (w : World) :
    (sendXrtRequestWithSubTimeout env c topic requestId request response t w).world.trace
      = w.trace ++
        (match env.marshal request with
         | .error _ => []
         | .ok jsonData =>
           [.add c.requestMap requestId, .publish jsonData topic] ++
             (match env.publishBinaryData jsonData topic with
              | some _ => []
              | none => [.fetchSub c.requestMap requestId t])) := by
  unfold sendXrtRequestWithSubTimeout
  cases hm : env.marshal request with
  | error e => simp
  | ok jsonData =>
    cases hp : env.publishBinaryData jsonData topic with
    | some e => simp [hp, World.Add, World.record]
    | none =>
      have ht := FetchXRTResWithSubTimeout_trace env requestId c.requestMap t response
        ((w.Add c.requestMap requestId).record (.publish jsonData topic))
      rcases hf : FetchXRTResWithSubTimeout env requestId c.requestMap t response
        ((w.Add c.requestMap requestId).record (.publish jsonData topic)) with ⟨r, w1⟩
      rw [hf] at ht
      simp only [World.Add, World.record] at ht
      simp only [hp, hf]
      cases r <;> simpa using ht

theorem publishCalls_append (l1 l2 : List Event) :
    publishCalls (l1 ++ l2) = publishCalls l1 + publishCalls l2 := by
  simp [publishCalls]

/-- C12: in every run of the single-response send and of the fan-in send the calls made
are, in order, `Add` of the identity, then one `PublishBinaryData`, then, only after a
publish that returned no error, the fetch routine; so the identity is registered before
the publish and there is at most one publish.  When the request does not serialise the
send returns an error and leaves the world as it was: no registration, no publish. -/
theorem C12_register_then_publish_then_fetch {ρ σ : Type} (env : Env) (c : Client)
    (topic requestId : String) (request : Request) (response : Bytes → Except GoError ρ)
    (collected : List Bytes → Except GoError σ) (t : Duration) (w : World) :
    (sendXrtRequestWithTimeout env c topic requestId request response t w).world.trace
        = w.trace ++
          (match env.marshal request with
           | .error _ => []
           | .ok jsonData =>
             [.add c.requestMap requestId, .publish jsonData topic] ++
               (match env.publishBinaryData jsonData topic with
                | some _ => []
                | none => [.fetch c.requestMap requestId t]))
      ∧ (sendXrtRequestWithSubTimeout env c topic requestId request collected t w).world.trace
        = w.trace ++
          (match env.marshal request with
           | .error _ => []
           | .ok jsonData =>
             [.add c.requestMap requestId, .publish jsonData topic] ++
               (match env.publishBinaryData jsonData topic with
                | some _ => []
                | none => [.fetchSub c.requestMap requestId t]))
      ∧ publishCalls (sendXrtRequestWithTimeout env c topic requestId request response t
          w).world.trace ≤ publishCalls w.trace + 1
      ∧ publishCalls (sendXrtRequestWithSubTimeout env c topic requestId request collected t
          w).world.trace ≤ publishCalls w.trace + 1
      ∧ (∀ e, env.marshal request = .error e →
          (sendXrtRequestWithTimeout env c topic requestId request response t w).err
              = some (NewCommonEdgeXWrapper e)
            ∧ (sendXrtRequestWithTimeout env c topic requestId request response t w).world = w
            ∧ (sendXrtRequestWithSubTimeout env c topic requestId request collected t w).err
              = some (NewCommonEdgeXWrapper e)
            ∧ (sendXrtRequestWithSubTimeout env c topic requestId request collected t w).world
              = w) := by
  refine ⟨sendXrtRequestWithTimeout_trace env c topic requestId request response t w,
    sendXrtRequestWithSubTimeout_trace env c topic requestId request collected t w, ?_, ?_, ?_⟩
  · rw [sendXrtRequestWithTimeout_trace, publishCalls_append]
    cases env.marshal request with
    | error e => simp [publishCalls]
    | ok jsonData =>
      cases hp : env.publishBinaryData jsonData topic <;> simp [hp, publishCalls, List.countP_cons]
  · rw [sendXrtRequestWithSubTimeout_trace, publishCalls_append]
    cases env.marshal request with
    | error e => simp [publishCalls]
    | ok jsonData =>
      cases hp : env.publishBinaryData jsonData topic <;> simp [hp, publishCalls, List.countP_cons]
  · intro e hm
    unfold sendXrtRequestWithTimeout sendXrtRequestWithSubTimeout
    rw [hm]
    exact ⟨rfl, rfl, rfl, rfl⟩

/-- C12 at an encoder that rejects the request: both sends return the wrapped encoder
error and make no call at all. -/
theorem C12_register_then_publish_then_fetch_witness :
    (sendXrtRequestWithTimeout marshalFailsEnv sampleClient "xrt/request" "r1" sampleRequest
        marshalFailsEnv.unmarshalCommon 2000000000 World.empty).err
        = some (NewCommonEdgeXWrapper (.plain "json: unsupported type"))
      ∧ (sendXrtRequestWithSubTimeout marshalFailsEnv sampleClient "xrt/request" "r1"
          sampleRequest (fun payloads => Except.ok payloads) 2000000000 World.empty).world
        = World.empty :=
  have h := (C12_register_then_publish_then_fetch marshalFailsEnv sampleClient "xrt/request" "r1"
    sampleRequest marshalFailsEnv.unmarshalCommon (fun payloads => Except.ok payloads)
    2000000000 World.empty).2.2.2.2 (.plain "json: unsupported type") rfl
  ⟨h.1, h.2.2.2⟩

/-! ## The option map of a discovery trigger -/

theorem OptionMap.find_replace_ne (m : OptionMap) (k k2 : String) (v : Value) (h : k2 ≠ k) :
    ((m.map (fun p => if p.1 == k then (k, v) else p)).find? (fun p => p.1 == k2)).map Prod.snd
      = (m.find? (fun p => p.1 == k2)).map Prod.snd := by
  have hk : ¬ k = k2 := fun e => h e.symm
  induction m with
  | nil => simp
  | cons p rest ih =>
    by_cases hp : p.1 = k
    · have hp2 : ¬ p.1 = k2 := fun e => hk (hp.symm.trans e)
      simp only [List.map_cons, List.find?_cons, hp, beq_self_eq_true, if_true]
      have e1 : (k == k2) = false := by simpa using hk
      simp only [e1]
      exact ih
    · simp only [List.map_cons, List.find?_cons]
      have e1 : (p.1 == k) = false := by simpa using hp
      simp only [e1, Bool.false_eq_true, if_false]
      cases hq : (p.1 == k2)
      · exact ih
      · rfl

theorem OptionMap.find_replace_self (m : OptionMap) (k : String) (v : Value)
    (h : m.any (fun p => p.1 == k) = true) :
    ((m.map (fun p => if p.1 == k then (k, v) else p)).find? (fun p => p.1 == k)).map Prod.snd
      = some v := by
  induction m with
  | nil => simp at h
  | cons p rest ih =>
    by_cases hp : p.1 = k
    · simp [hp]
    · have e1 : (p.1 == k) = false := by simpa using hp
      simp only [List.any_cons, e1, Bool.false_or] at h
      simp only [List.map_cons, List.find?_cons, e1, Bool.false_eq_true, if_false]
      exact ih h

theorem OptionMap.get_set_self (m : OptionMap) (k : String) (v : Value) :
    (m.set k v).get k = some v := by
  unfold OptionMap.set OptionMap.get
  split
  · rename_i h
    exact OptionMap.find_replace_self m k v h
  · rename_i h
    simp only [List.any_eq_true, not_exists, not_and] at h
    rw [List.find?_append]
    have : List.find? (fun p => p.1 == k) m = none := by
      rw [List.find?_eq_none]
      intro x hx
      exact h x hx
    simp [this]

theorem OptionMap.get_set_of_ne (m : OptionMap) (k k2 : String) (v : Value) (h : k2 ≠ k) :
    (m.set k v).get k2 = m.get k2 := by
  unfold OptionMap.set OptionMap.get
  split
  · exact OptionMap.find_replace_ne m k k2 v h
  · rw [List.find?_append]
    have hk : ¬ k = k2 := fun e => h e.symm
    simp [hk]

theorem OptionMap.keys_set (m : OptionMap) (k : String) (v : Value) :
    (m.set k v).map Prod.fst = if k ∈ m.map Prod.fst then m.map Prod.fst else m.map Prod.fst ++ [k] := by
  unfold OptionMap.set
  by_cases h : k ∈ m.map Prod.fst
  · have hany : m.any (fun p => p.1 == k) = true := by
      simp only [List.mem_map] at h
      rcases h with ⟨p, hp, rfl⟩
      simp only [List.any_eq_true]
      exact ⟨p, hp, by simp⟩
    simp only [hany, if_true, h]
    rw [List.map_map]
    apply List.map_congr_left
    intro p _
    by_cases hp : p.1 = k <;> simp [hp]
  · have hany : ¬ m.any (fun p => p.1 == k) = true := by
      intro hc
      simp only [List.any_eq_true] at hc
      rcases hc with ⟨p, hp, hk⟩
      exact h (List.mem_map.mpr ⟨p, hp, by simpa using hk⟩)
    simp [hany, h]

theorem OptionMap.get_eq_none (m : OptionMap) (k : String) (h : k ∉ m.map Prod.fst) :
    m.get k = none := by
  unfold OptionMap.get
  simp only [Option.map_eq_none', List.find?_eq_none]
  intro p hp hk
  exact h (List.mem_map.mpr ⟨p, hp, by simpa using hk⟩)

theorem OptionMap.foldl_set_get (ext : OptionMap) :
    ∀ init : OptionMap, (ext.map Prod.fst).Nodup → ∀ k,
      (ext.foldl (fun options kv => options.set kv.1 kv.2) init).get k
        = match ext.get k with
          | some v => some v
          | none => init.get k := by
  induction ext with
  | nil => intro init _ k; simp [OptionMap.get]
  | cons p rest ih =>
    intro init hnd k
    simp only [List.map_cons, List.nodup_cons] at hnd
    simp only [List.foldl_cons]
    rw [ih (init.set p.1 p.2) hnd.2 k]
    by_cases hk : k = p.1
    · subst hk
      rw [OptionMap.get_eq_none rest p.1 hnd.1]
      rw [OptionMap.get_set_self]
      simp [OptionMap.get]
    · rw [OptionMap.get_set_of_ne _ _ _ _ hk]
      have hk2 : ¬ p.1 = k := fun e => hk e.symm
      simp [OptionMap.get, List.find?_cons, hk2]

theorem OptionMap.foldl_set_keys_nodup (ext : OptionMap) :
    ∀ init : OptionMap, (init.map Prod.fst).Nodup →
      ((ext.foldl (fun options kv => options.set kv.1 kv.2) init).map Prod.fst).Nodup := by
  induction ext with
  | nil => intro init h; simpa using h
  | cons p rest ih =>
    intro init h
    simp only [List.foldl_cons]
    apply ih
    rw [OptionMap.keys_set]
    split
    · exact h
    · rename_i hn
      rw [List.nodup_append]
      refine ⟨h, by simp, ?_⟩
      intro a ha hb
      simp at hb
      subst hb
      exact hn ha
theorem foldl_setMap (options : Nat) (pairs : OptionMap) :
    ∀ w : World, pairs.foldl (fun acc kv => acc.setMap options kv.1 kv.2) w
      = { w with
          maps := Function.update w.maps options
            (pairs.foldl (fun m kv => OptionMap.set m kv.1 kv.2) (w.maps options)) } := by
  induction pairs with
  | nil => intro w; simp
  | cons kv rest ih =>
    intro w
    simp only [List.foldl_cons]
    rw [ih (w.setMap options kv.1 kv.2)]
    simp [World.setMap]

/-- What the map-building statements of `TriggerDiscovery` leave behind when the
configured map is an existing object: the new map sits at the next free pointer and
nothing else changes. -/
theorem discoveryRequestOptions_eq (d : DiscoveryOptions) (w : World)
    (halloc : ∀ p, d.ExtentedDiscoveryOptions = some p → p < w.nextMap) :
    discoveryRequestOptions d w
      = (w.nextMap,
          { w with
            maps := Function.update w.maps w.nextMap
              ((w.readMap d.ExtentedDiscoveryOptions).foldl (fun m kv => OptionMap.set m kv.1 kv.2)
                [(discoveryDurationOption, Value.int d.DiscoveryDuration.Milliseconds)])
            nextMap := w.nextMap + 1 }) := by
  have hread : World.readMap
      { w with
        maps := Function.update w.maps w.nextMap
          [(discoveryDurationOption, Value.int d.DiscoveryDuration.Milliseconds)]
        nextMap := w.nextMap + 1 } d.ExtentedDiscoveryOptions
      = w.readMap d.ExtentedDiscoveryOptions := by
    cases hx : d.ExtentedDiscoveryOptions with
    | none => rfl
    | some p =>
      have hlt := halloc p hx
      have hne : p ≠ w.nextMap := by omega
      simp [World.readMap, Function.update_noteq hne]
  unfold discoveryRequestOptions World.makeMap
  simp only []
  rw [hread, foldl_setMap]
  simp

theorem FetchXRTResponse_maps (env : Env) (requestId : String) (requestMap : Nat)
    (t : Duration) (w : World) :
    (FetchXRTResponse env requestId requestMap t w).2.maps = w.maps := by
  unfold FetchXRTResponse
  simp only [World.record]
  split
  · rfl
  · split <;> rfl

/-- A single-response send touches no Go map object. -/
theorem sendXrtRequestWithTimeout_maps {ρ : Type} (env : Env) (c : Client)
    (topic requestId : String) (request : Request) (response : Bytes → Except GoError ρ)
    (t : Duration) (w : World) :
    (sendXrtRequestWithTimeout env c topic requestId request response t w).world.maps
      = w.maps := by
  unfold sendXrtRequestWithTimeout
  cases hm : env.marshal request with
  | error e => simp
  | ok jsonData =>
    cases hp : env.publishBinaryData jsonData topic with
    | some e => simp [hp, World.Add, World.record]
    | none =>
      have ht := FetchXRTResponse_maps env requestId c.requestMap t
        ((w.Add c.requestMap requestId).record (.publish jsonData topic))
      rcases hf : FetchXRTResponse env requestId c.requestMap t
        ((w.Add c.requestMap requestId).record (.publish jsonData topic)) with ⟨r, w1⟩
      rw [hf] at ht
      simp only [World.Add, World.record] at ht
      simp only [hp, hf]
      cases r with
      | error e => simpa using ht
      | ok bytes =>
        simp only []
        cases response bytes with
        | error e => simpa using ht
        | ok decoded =>
          simp only []
          cases env.unmarshalCommon bytes with
          | error e => simpa using ht
          | ok common =>
            simp only []
            cases common.Result.Error <;> simpa using ht

/-- C13: with discovery options supplied whose extended options are an existing map
object (or nil), `TriggerDiscovery` makes a new map that holds every extended key with
its configured value, holds `DiscoveryDuration` with the duration in whole milliseconds
when the extended options do not have that key, and holds no other key.  The contents of
that new map are the body of the request handed to `sendXrtDiscoveryRequest`, whose
serialisation is what gets published; and when `TriggerDiscovery` returns, every map
object that existed before, the configured extended options among them, is unchanged. -/
theorem C13_trigger_discovery_options (env : Env) (c : Client) (o : ClientOptions)
    (d : DiscoveryOptions) (w : World)
    (ho : c.clientOptions = some o) (hd : o.DiscoveryOptions = some d)
    (halloc : ∀ p, d.ExtentedDiscoveryOptions = some p → p < w.nextMap)
    (hmap : ((w.readMap d.ExtentedDiscoveryOptions).map Prod.fst).Nodup) :
    (∀ k v, (w.readMap d.ExtentedDiscoveryOptions).get k = some v →
        ((discoveryRequestOptions d w).2.maps (discoveryRequestOptions d w).1).get k = some v)
      ∧ ((w.readMap d.ExtentedDiscoveryOptions).get discoveryDurationOption = none →
          ((discoveryRequestOptions d w).2.maps (discoveryRequestOptions d w).1).get
              discoveryDurationOption
            = some (.int (Int.tdiv d.DiscoveryDuration 1000000)))
      ∧ (∀ k, k ≠ discoveryDurationOption →
          (w.readMap d.ExtentedDiscoveryOptions).get k = none →
          ((discoveryRequestOptions d w).2.maps (discoveryRequestOptions d w).1).get k = none)
      ∧ (((discoveryRequestOptions d w).2.maps (discoveryRequestOptions d w).1).map
          Prod.fst).Nodup
      ∧ (TriggerDiscovery env c w).2
          = (sendXrtDiscoveryRequest env c (env.newUUID w.uuids)
              ⟨env.newUUID w.uuids, clientName,
                .discovery ((discoveryRequestOptions d w).2.maps (discoveryRequestOptions d w).1)⟩
              env.unmarshalCommon
              { (discoveryRequestOptions d w).2.log .debug
                  "triggering discovery with discovery options - %v" with
                uuids := w.uuids + 1 }).world
      ∧ (∀ jsonData,
          env.marshal ⟨env.newUUID w.uuids, clientName,
              .discovery ((discoveryRequestOptions d w).2.maps (discoveryRequestOptions d w).1)⟩
            = .ok jsonData →
          Event.publish jsonData c.requestTopic ∈ (TriggerDiscovery env c w).2.trace)
      ∧ (∀ p, p < w.nextMap → (TriggerDiscovery env c w).2.maps p = w.maps p)
      ∧ (TriggerDiscovery env c w).2.readMap d.ExtentedDiscoveryOptions
        = w.readMap d.ExtentedDiscoveryOptions := by
  have hbuilt := discoveryRequestOptions_eq d w halloc
  have hopts : (discoveryRequestOptions d w).2.maps (discoveryRequestOptions d w).1
      = (w.readMap d.ExtentedDiscoveryOptions).foldl (fun m kv => OptionMap.set m kv.1 kv.2)
          [(discoveryDurationOption, Value.int d.DiscoveryDuration.Milliseconds)] := by
    rw [hbuilt]
    simp
  have huuids : (discoveryRequestOptions d w).2.uuids = w.uuids := by
    rw [hbuilt]
  have hget : ∀ k, ((discoveryRequestOptions d w).2.maps (discoveryRequestOptions d w).1).get k
      = match (w.readMap d.ExtentedDiscoveryOptions).get k with
        | some v => some v
        | none =>
          OptionMap.get [(discoveryDurationOption, .int d.DiscoveryDuration.Milliseconds)] k := by
    intro k
    rw [hopts]
    exact OptionMap.foldl_set_get _ _ hmap k
  have htrig : (TriggerDiscovery env c w).2
      = (sendXrtDiscoveryRequest env c (env.newUUID w.uuids)
          ⟨env.newUUID w.uuids, clientName,
            .discovery ((discoveryRequestOptions d w).2.maps (discoveryRequestOptions d w).1)⟩
          env.unmarshalCommon
          { (discoveryRequestOptions d w).2.log .debug
              "triggering discovery with discovery options - %v" with
            uuids := w.uuids + 1 }).world := by
    unfold TriggerDiscovery
    simp only [ho, hd, Option.bind, newRequest, World.log, huuids]
    split <;> rfl
  have hmaps : ∀ p, p < w.nextMap → (TriggerDiscovery env c w).2.maps p = w.maps p := by
    intro p hp
    rw [htrig]
    unfold sendXrtDiscoveryRequest
    simp only [ho, hd, Option.bind]
    rw [sendXrtRequestWithTimeout_maps]
    simp only [World.log]
    rw [hbuilt]
    have hne : p ≠ w.nextMap := by omega
    exact Function.update_noteq hne _ _
  refine ⟨?_, ?_, ?_, ?_, htrig, ?_, hmaps, ?_⟩
  · intro k v hk
    rw [hget k, hk]
  · intro hk
    rw [hget, hk]
    simp [OptionMap.get, Duration.Milliseconds]
  · intro k hne hk
    rw [hget, hk]
    have hne2 : ¬ discoveryDurationOption = k := fun e => hne e.symm
    simp [OptionMap.get, hne2]
  · rw [hopts]
    exact OptionMap.foldl_set_keys_nodup _ _ (by simp)
  · intro jsonData hm
    rw [htrig]
    unfold sendXrtDiscoveryRequest
    simp only [ho, hd, Option.bind]
    rw [sendXrtRequestWithTimeout_trace, hm]
    simp [World.log]
  · cases hx : d.ExtentedDiscoveryOptions with
    | none => rfl
    | some p => exact hmaps p (halloc p hx)

/-- C13 at a configured map that sets `DiscoveryDuration` to 250 beside a 5s duration:
the extended value wins, the protocol option is carried over, no other key appears, and
the configured map object is as it was when `TriggerDiscovery` returns. -/
theorem C13_trigger_discovery_options_witness :
    ((discoveryRequestOptions extendedDiscoveryOptions extendedOptionsWorld).2.maps
        (discoveryRequestOptions extendedDiscoveryOptions extendedOptionsWorld).1).get
        "DiscoveryDuration" = some (.int 250)
      ∧ ((discoveryRequestOptions extendedDiscoveryOptions extendedOptionsWorld).2.maps
          (discoveryRequestOptions extendedDiscoveryOptions extendedOptionsWorld).1).get
          "Protocol" = some (.str "modbus")
      ∧ ((discoveryRequestOptions extendedDiscoveryOptions extendedOptionsWorld).2.maps
          (discoveryRequestOptions extendedDiscoveryOptions extendedOptionsWorld).1).get
          "Timeout" = none
      ∧ (TriggerDiscovery sampleEnv extendedDiscoveryClient extendedOptionsWorld).2.maps 0
        = extendedOptionsWorld.maps 0 :=
  have h := C13_trigger_discovery_options sampleEnv extendedDiscoveryClient
    ⟨none, some extendedDiscoveryOptions, none⟩ extendedDiscoveryOptions extendedOptionsWorld
    rfl rfl (fun p hp => by cases hp; decide) (by decide)
  ⟨h.1 "DiscoveryDuration" (.int 250) (by decide), h.1 "Protocol" (.str "modbus") (by decide),
    h.2.2.1 "Timeout" (by decide) (by decide), h.2.2.2.2.2.2.1 0 (by decide)⟩

/-! ## The discovery budget under wrapping addition -/

theorem addInt64_overflow (a b e : Int) (hb : 0 ≤ b) (he : 0 ≤ e)
    (hb2 : b ≤ maxInt64) (he2 : e ≤ maxInt64)
    (hover : maxInt64 < a + b + e) : addInt64 (addInt64 a b) e < a := by
  unfold addInt64 wrapInt64
  unfold maxInt64 at hb2 he2 hover
  omega

theorem sum_bounds (a b e t : Int) (ha : 0 ≤ a) (hb : 0 ≤ b) (he : 0 ≤ e) (ht : t = a + b + e) :
    0 ≤ t ∧ a ≤ t ∧ b ≤ t ∧ e ≤ t := by
  omega

/-- C14, as stated, fails: with the largest base response timeout and a discovery
duration of one nanosecond the wrapping sum is the smallest int64, so the discovery
call waits with a negative budget, smaller than the budget of the plain call. -/
theorem C14_budget_wraps_negative :
    (sendXrtDiscoveryRequest sampleEnv overflowClient "r1" sampleRequest
        sampleEnv.unmarshalCommon World.empty).world.trace
        = [.add 0 "r1", .publish [123, 125] "xrt/request",
            .fetch 0 "r1" (-9223372036854775808)]
      ∧ (sendXrtRequest sampleEnv overflowClient "r1" sampleRequest
          sampleEnv.unmarshalCommon World.empty).world.trace
        = [.add 0 "r1", .publish [123, 125] "xrt/request",
            .fetch 0 "r1" 9223372036854775807] := by
  decide

/-- C14, amended: for non-negative int64 values of the base response timeout, discovery
duration and discovery timeout (the bound on the base is not needed), the budget that `sendXrtDiscoveryRequest` waits with is
their wrapping sum; it is non-negative and at least each of the three exactly when their
sum is at most the largest int64, in which case it is the sum; when the sum is larger the
budget is smaller than the base response timeout, the budget of the plain call. -/
theorem C14_budget_bounds_iff_sum_fits {ρ : Type} (env : Env) (c : Client) (o : ClientOptions)
    (d : DiscoveryOptions) (requestId : String) (request : Request)
    (response : Bytes → Except GoError ρ) (w : World)
    (ho : c.clientOptions = some o) (hd : o.DiscoveryOptions = some d)
    (h0 : 0 ≤ c.responseTimeout) (h1 : 0 ≤ d.DiscoveryDuration) (h2 : 0 ≤ d.DiscoveryTimeout)
    (m1 : d.DiscoveryDuration ≤ maxInt64) (m2 : d.DiscoveryTimeout ≤ maxInt64) :
    sendXrtDiscoveryRequest env c requestId request response w
        = sendXrtRequestWithTimeout env c c.requestTopic requestId request response
            (addInt64 (addInt64 c.responseTimeout d.DiscoveryDuration) d.DiscoveryTimeout) w
      ∧ ((0 ≤ addInt64 (addInt64 c.responseTimeout d.DiscoveryDuration) d.DiscoveryTimeout
            ∧ c.responseTimeout
                ≤ addInt64 (addInt64 c.responseTimeout d.DiscoveryDuration) d.DiscoveryTimeout
            ∧ d.DiscoveryDuration
                ≤ addInt64 (addInt64 c.responseTimeout d.DiscoveryDuration) d.DiscoveryTimeout
            ∧ d.DiscoveryTimeout
                ≤ addInt64 (addInt64 c.responseTimeout d.DiscoveryDuration) d.DiscoveryTimeout)
          ↔ c.responseTimeout + d.DiscoveryDuration + d.DiscoveryTimeout ≤ maxInt64)
      ∧ (c.responseTimeout + d.DiscoveryDuration + d.DiscoveryTimeout ≤ maxInt64 →
          addInt64 (addInt64 c.responseTimeout d.DiscoveryDuration) d.DiscoveryTimeout
            = c.responseTimeout + d.DiscoveryDuration + d.DiscoveryTimeout)
      ∧ (maxInt64 < c.responseTimeout + d.DiscoveryDuration + d.DiscoveryTimeout →
          addInt64 (addInt64 c.responseTimeout d.DiscoveryDuration) d.DiscoveryTimeout
            < c.responseTimeout) := by
  have hfit := addInt64_exact c.responseTimeout d.DiscoveryDuration d.DiscoveryTimeout h0 h1 h2
  have hover := addInt64_overflow c.responseTimeout d.DiscoveryDuration d.DiscoveryTimeout
    h1 h2 m1 m2
  refine ⟨?_, ?_, hfit, hover⟩
  · unfold sendXrtDiscoveryRequest
    simp only [ho, hd, Option.bind, Duration.Nanoseconds]
  · constructor
    · intro hb
      by_contra hlt
      have hlt2 : maxInt64 < c.responseTimeout + d.DiscoveryDuration + d.DiscoveryTimeout :=
        lt_of_not_ge hlt
      exact absurd hb.2.1 (not_le.mpr (hover hlt2))
    · intro hle
      exact sum_bounds _ _ _ _ h0 h1 h2 (hfit hle)

/-- C14, amended, at base 2s, duration 5s, timeout 1s: the budget is the sum, 8s. -/
theorem C14_budget_bounds_iff_sum_fits_witness :
    addInt64 (addInt64 sampleClient.responseTimeout sampleDiscoveryOptions.DiscoveryDuration)
        sampleDiscoveryOptions.DiscoveryTimeout
      = sampleClient.responseTimeout + sampleDiscoveryOptions.DiscoveryDuration
        + sampleDiscoveryOptions.DiscoveryTimeout :=
  (C14_budget_bounds_iff_sum_fits sampleEnv sampleClient sampleOptions sampleDiscoveryOptions
    "r1" sampleRequest sampleEnv.unmarshalCommon World.empty rfl rfl (by decide) (by decide)
    (by decide) (by decide) (by decide)).2.2.1 (by decide)

end Xrt
